import Mathlib

/-!
# Verification of the keras-js tensor/execution engine slice

A shallow embedding of the `Activation` layer and the `TimeDistributed`
wrapper layer of the keras-js inference engine, together with the parts of
the `Tensor` substrate and backend services they use.

Numeric element type: the elementwise kernels are external pluggable
functions, so tensor elements are modelled as `Int` and the kernels as
`Int → Int`; nothing here depends on floating-point behaviour.

The GPU backend is modelled by explicit state passing: a `GPUState` carries
a fresh-handle counter for texture/program allocation and counters of
`runProgram` submissions and device-to-host transfers.
-/

/-- Product of a shape (row-major element count). -/
def prodl : List Nat → Nat
  | [] => 1
  | n :: ns => n * prodl ns

/-- Modelled from the spec: the `Tensor` data model (§3, §4.1 of the design
document; `Tensor.js` itself is not part of the analysed sources).
A tensor holds a logical `shape`, a flat row-major `data` buffer, and the
device-side fields: an optional texture handle, the 2-D texture shape, the
texture contents, the `is1D` / `is2DReshaped` layout flags, the retained
`originalShape`, and the row/col index-map data (`indicesForReshaped`). -/
structure Tensor where
  shape : List Nat
  data : List Int
  glTexture : Option Nat := none
  glTextureShape : List Nat := []
  textureData : List Int := []
  is1D : Bool := false
  is2DReshaped : Bool := false
  originalShape : List Nat := []
  indicesRow : List Int := []
  indicesCol : List Int := []
  deriving DecidableEq, Inhabited

/-- Modelled from the spec: the `Tensor` constructor (`new Tensor(data, shape)`)
creates a zero buffer of length `product(shape)` when given an empty data
argument, otherwise adopts the given buffer. -/
def Tensor.new (shape : List Nat) (data : List Int) : Tensor :=
  { shape := shape
    data := if data.isEmpty then List.replicate (prodl shape) 0 else data }

/-- Row-major data of the slice at index `t` along axis 0, for slice size `sz`. -/
def sliceData (d : List Int) (sz t : Nat) : List Int :=
  (d.drop (t * sz)).take sz

/-- `x.tensor.pick(t, null, ..., null)` copied out into a fresh tensor:
the slice of `x` at index `t` of axis 0 (this is what `ops.assign(step, x.pick(t,...))`
produces in the CPU paths). -/
def Tensor.pick (x : Tensor) (t : Nat) : Tensor :=
  { shape := x.shape.tail, data := sliceData x.data (prodl x.shape.tail) t }

/-- Overwrite the slice at index `t` (slice size `sz`) of a row-major buffer. -/
def spliceData (d : List Int) (sz t : Nat) (src : List Int) : List Int :=
  d.take (t * sz) ++ src ++ d.drop ((t + 1) * sz)

/-- `ops.assign(out.tensor.pick(t, null, ..., null), src.tensor)`:
write `src` into slice `t` of axis 0 of `out`. -/
def assignSlice (out : Tensor) (t : Nat) (src : Tensor) : Tensor :=
  { out with data := spliceData out.data (prodl out.shape.tail) t src.data }

/-! ## The GPU backend service (modelled from the spec, §4.1 and §6) -/

/-- Explicit state of the opaque compute-backend service: a fresh-handle
counter for textures and compiled programs, plus observation counters for
program submissions and device-to-host transfers. -/
structure GPUState where
  nextHandle : Nat := 0
  runCount : Nat := 0
  transferCount : Nat := 0
  deriving DecidableEq, Inhabited

/-- Modelled from the spec: `Tensor.createGLTexture` (texture lifecycle,
§4.1 `createDeviceTexture`): allocate a device texture mirroring the current
buffer; a rank-1 tensor is laid out as one row (`[1, n]`, flag `is1D`). -/
def Tensor.createGLTexture (x : Tensor) (s : GPUState) : Tensor × GPUState :=
  let texShape := if x.shape.length = 1 then [1, x.shape.headD 0] else x.shape
  let tex : Tensor :=
    { x with
      glTexture := some s.nextHandle
      glTextureShape := texShape
      is1D := x.is1D || x.shape.length = 1
      textureData :=
        x.data.take (prodl texShape) ++
          List.replicate (prodl texShape - x.data.length) 0 }
  (tex, { s with nextHandle := s.nextHandle + 1 })

/-- Modelled from the spec: `webgl2.compileProgram` (§6): returns a fresh
program handle. -/
def compileProgram (_src : String) (s : GPUState) : Nat × GPUState :=
  (s.nextHandle, { s with nextHandle := s.nextHandle + 1 })

/-- Modelled from the spec: `webgl2.runProgram` (§6): executes a program and
writes its result (`newTex`, the program's semantics applied at the call
site) into the output tensor's texture. -/
def runProgram (out : Tensor) (newTex : List Int) (s : GPUState) : Tensor × GPUState :=
  ({ out with textureData := newTex }, { s with runCount := s.runCount + 1 })

/-- Modelled from the spec: `Tensor.transferFromGLTexture` (§4.1
`transferFromDevice`): copy the device texture contents back into the flat
buffer. -/
def Tensor.transferFromGLTexture (x : Tensor) (s : GPUState) : Tensor × GPUState :=
  ({ x with data := x.textureData }, { s with transferCount := s.transferCount + 1 })

/-- Smallest `side` with `E ≤ side * side` (i.e. `ceil(sqrt(E))`). -/
def ceilSqrt (E : Nat) : Nat :=
  if Nat.sqrt E * Nat.sqrt E = E then Nat.sqrt E else Nat.sqrt E + 1

/-- Modelled from the spec: `Tensor.reshapeTo2DSquare` (§4.1
`reshapeToSquare`): repack the row-major data into a `side × side` square
layout (padded with zeros), retain `originalShape`, and record the row/col
index maps sending flattened coordinate `k` to `(k / side, k % side)`. -/
def Tensor.reshapeTo2DSquare (x : Tensor) : Tensor :=
  let E := prodl x.shape
  let side := ceilSqrt E
  { x with
    shape := [side, side]
    data := x.data.take E ++ List.replicate (side * side - min E x.data.length) 0
    is2DReshaped := true
    originalShape := x.shape
    indicesRow := (List.range E).map (fun k => (Int.ofNat (k / side)))
    indicesCol := (List.range E).map (fun k => (Int.ofNat (k % side))) }

/-- Modelled from the spec: `Tensor.reshapeFrom2DSquare` (§4.1
`reshapeFrom2DSquare`): inverse of the square reshape — keep the first
`product(originalShape)` cells, drop the padding, restore the logical shape
and the Native layout state. -/
def Tensor.reshapeFrom2DSquare (x : Tensor) : Tensor :=
  { x with
    shape := x.originalShape
    data := x.data.take (prodl x.originalShape)
    is2DReshaped := false }

/-- Modelled from the spec: `Tensor.reshapeFrom2D` — the same inverse-reshape
operation for the non-square 2-D packing; identical observable effect: first
`product(originalShape)` cells reinterpreted under the original shape. -/
def Tensor.reshapeFrom2D (x : Tensor) : Tensor :=
  { x with
    shape := x.originalShape
    data := x.data.take (prodl x.originalShape)
    is2DReshaped := false }

/-! ## Errors and external catalogs -/

/-- Errors of the engine: `configurationError` for construction-time
validation (the `ConfigurationError` of the spec), `moduleNotFoundError` for
a failing `require` of a shader source file, `typeError` for calling a
non-function value at runtime. -/
inductive KError where
  | configurationError (msg : String)
  | moduleNotFoundError (msg : String)
  | typeError (msg : String)
  deriving DecidableEq

/-- The elementwise activation-function catalog (`import * as activations`),
an external collaborator (spec §6): a registry mapping an activation name to
an in-place elementwise function, here instantiated with the identity
(`linear`) and `relu`; unknown names are absent (`undefined` in the source). -/
def activations : String → Option (Int → Int)
  | "linear" => some (fun v => v)
  | "relu" => some (fun v => max v 0)
  | _ => none

/-- Modelled from the spec: ``require(`../../activations/${name}.glsl`)`` —
a shader source file is shipped for exactly the names in the activation
catalog; `require` of any other name fails (module not found). -/
def shaderSource (name : String) : Option String :=
  (activations name).map (fun _ => name ++ ".glsl")

/-! ## Activation layer (src/unnamed/part_000, `Activation`) -/

/-- State of an `Activation` layer: the fields of the `Layer` base (the
class tag, the backend flag, the outbound consumer list, the owned `output`
tensor) plus the stored activation name, the looked-up elementwise function
(`this.activationFunc`, possibly `undefined` = `none`), and the compiled
device program handle. -/
structure ActLayer where
  layerClass : String
  activation : String
  activationFunc : Option (Int → Int)
  gpu : Bool
  outbound : List (Option Nat)
  program : Option Nat
  output : Option Tensor

/-- Construction attributes of an `Activation` layer. -/
structure ActAttrs where
  activation : Option String := none
  gpu : Bool := false
  deriving DecidableEq

/-- The `Activation` constructor: defaults the name to `'linear'`, stores the
catalog lookup in `activationFunc` (no validation of the name), and on the
GPU additionally compiles the named shader — whose `require` fails for a
name with no shipped shader file. -/
def Activation.new (attrs : ActAttrs) (s : GPUState) : Except KError (ActLayer × GPUState) :=
  let activation := attrs.activation.getD "linear"
  let l : ActLayer :=
    { layerClass := "Activation"
      activation := activation
      activationFunc := activations activation
      gpu := attrs.gpu
      outbound := []
      program := none
      output := none }
  if attrs.gpu then
    match shaderSource activation with
    | some src =>
      let (p, s') := compileProgram src s
      .ok ({ l with program := some p }, s')
    | none => .error (.moduleNotFoundError ("Cannot find module ./" ++ activation ++ ".glsl"))
  else
    .ok (l, s)

/-- `Activation._callCPU`: allocate the output as a fresh tensor holding a
copy of the input's buffer with the input's shape
(`new Tensor(new x.arrayType(x.tensor.data), x.tensor.shape)`), then apply
`this.activationFunc` in place over the copy. Returns the input tensor as
the call leaves it together with the output; calling an `undefined`
activation function raises a `TypeError`. -/
def Activation.callCPU (l : ActLayer) (x : Tensor) : Except KError (Tensor × Tensor) :=
  let output : Tensor := { shape := x.shape, data := x.data }
  match l.activationFunc with
  | some f => .ok (x, { output with data := output.data.map f })
  | none => .error (.typeError (l.activation ++ " is not a function"))

/-- First half of `Activation._callGPU`: `if (!x.glTexture) x.createGLTexture()`. -/
def Activation.ensureInputTexture (x : Tensor) (s : GPUState) : Tensor × GPUState :=
  if x.glTexture.isNone then x.createGLTexture s else (x, s)

/-- Output bootstrap of `Activation._callGPU`: on the first call
(`if (!this.output)`) create the output with the input's on-device shape,
give it a texture, and propagate the `is1D` / `is2DReshaped` layout metadata
from the input; afterwards reuse the existing output. -/
def Activation.ensureOutput (l : ActLayer) (x1 : Tensor) (s : GPUState) : Tensor × GPUState :=
  match l.output with
  | some o => (o, s)
  | none =>
    let r := (Tensor.new x1.glTextureShape []).createGLTexture s
    let o :=
      if x1.is1D then { r.1 with is1D := x1.is1D }
      else if x1.is2DReshaped then
        { r.1 with
          is2DReshaped := x1.is2DReshaped
          originalShape := x1.originalShape
          indicesRow := x1.indicesRow
          indicesCol := x1.indicesCol }
      else r.1
    (o, r.2)

/-- Terminal block of `Activation._callGPU`: when the outbound consumer list
is empty, transfer the output off the device and, if it is 2-D-reshaped,
invert the reshape; otherwise leave the output device-resident. -/
def Activation.terminalTransfer (outbound : List (Option Nat)) (out : Tensor) (s : GPUState) :
    Tensor × GPUState :=
  if outbound.length = 0 then
    let r := out.transferFromGLTexture s
    if r.1.is2DReshaped then (r.1.reshapeFrom2D, r.2) else r
  else (out, s)

/-- `Activation._callGPU`: ensure the input texture, bootstrap the output
once, run the compiled elementwise program (semantics: the catalog function
applied texel-wise), then apply the terminal-transfer policy. Returns the
updated layer, the input as the call leaves it, the output, and the backend
state. -/
def Activation.callGPU (l : ActLayer) (x : Tensor) (s : GPUState) :
    ActLayer × Tensor × Tensor × GPUState :=
  let r1 := Activation.ensureInputTexture x s
  let f := (activations l.activation).getD (fun v => v)
  let r2 := Activation.ensureOutput l r1.1 r1.2
  let r3 := runProgram r2.1 (r1.1.textureData.map f) r2.2
  let r4 := Activation.terminalTransfer l.outbound r3.1 r3.2
  ({ l with output := some r4.1 }, r1.1, r4.1, r4.2)

/-- `Activation.call`: the `'linear'` variant short-circuits, storing and
returning the input tensor itself; otherwise dispatch on the backend flag.
Returns the updated layer, the input as the call leaves it, the returned
output, and the backend state. -/
def Activation.call (l : ActLayer) (x : Tensor) (s : GPUState) :
    Except KError (ActLayer × Tensor × Tensor × GPUState) :=
  if l.activation = "linear" then
    .ok ({ l with output := some x }, x, x, s)
  else if l.gpu then
    .ok (Activation.callGPU l x s)
  else
    match Activation.callCPU l x with
    | .ok (x', out) => .ok ({ l with output := some out }, x', out, s)
    | .error e => .error e

/-! ## TimeDistributed wrapper layer (src/src/layers/wrappers/TimeDistributed.js) -/

/-- A wrapped-layer configuration entry (`attrs.layer`): the layer-kind tag
and the wrapped layer's own config record. -/
structure LayerConfig where
  class_name : String
  config : ActAttrs
  deriving DecidableEq

/-- Construction attributes of a `TimeDistributed` wrapper. -/
structure TDAttrs where
  layer : Option LayerConfig := none
  gpu : Bool := false
  deriving DecidableEq

/-- State of a `TimeDistributed` wrapper layer: the `Layer` base fields, the
owned wrapped layer, the five compiled program handles, and the lazily
created per-instance resources (`slice` scratch, `output`/`outputCopy` pair,
`sliceOutput`, and the four index-map collections, `undefined` = `none`
until built). -/
structure TDLayer where
  layerClass : String
  gpu : Bool
  outbound : List (Option Nat)
  wrappedLayer : ActLayer
  copyTextureProgram : Option Nat := none
  mapInputProgram : Option Nat := none
  selectSliceProgram : Option Nat := none
  copySliceOutputProgram : Option Nat := none
  mapSliceOutputProgram : Option Nat := none
  inputShape : List Nat := []
  outputShape : List Nat := []
  slice : Option Tensor := none
  sliceOutput : Option Tensor := none
  output : Option Tensor := none
  outputCopy : Option Tensor := none
  rowIndexMaps : Option (List Tensor) := none
  colIndexMaps : Option (List Tensor) := none
  outputRowIndexMaps : Option (List Tensor) := none
  outputColIndexMaps : Option (List Tensor) := none

/-- The layer catalog (`import * as layers`), an external registry mapping a
layer-kind tag to its constructor (spec §6), here instantiated with the
`Activation` layer — the concrete layer of the analysed sources; an unknown
tag is `undefined` and calling it as a constructor is a `TypeError`. -/
def layersCatalog (className : String) (attrs : ActAttrs) (s : GPUState) :
    Except KError (ActLayer × GPUState) :=
  if className = "Activation" then Activation.new attrs s
  else .error (.typeError ("layers[" ++ className ++ "] is not a constructor"))

/-- The `TimeDistributed` constructor: a missing wrapped-layer entry raises a
`ConfigurationError` (`this.throwError('wrapped layer is undefined.')`,
modelled from the spec's `Layer.throwError`: raise synchronously with the
given message). Otherwise the wrapped layer is instantiated from the catalog
with the wrapper's backend flag merged in, its outbound list is forced to
the non-empty sentinel `[null]`, and on the GPU the five wrapper programs
are compiled. -/
def TimeDistributed.new (attrs : TDAttrs) (s : GPUState) : Except KError (TDLayer × GPUState) :=
  match attrs.layer with
  | none => .error (.configurationError "wrapped layer is undefined.")
  | some layer =>
    let wrappedLayerAttrs : ActAttrs :=
      { activation := layer.config.activation, gpu := attrs.gpu }
    match layersCatalog layer.class_name wrappedLayerAttrs s with
    | .error e => .error e
    | .ok (wrapped, s1) =>
    let wrapped := { wrapped with outbound := [none] }
    let l : TDLayer :=
      { layerClass := "TimeDistributed"
        gpu := attrs.gpu
        outbound := []
        wrappedLayer := wrapped }
    if attrs.gpu then
      let (p1, s2) := compileProgram "copyTexture.glsl" s1
      let (p2, s3) := compileProgram "mapInput.glsl" s2
      let (p3, s4) := compileProgram "TimeDistributed.selectSlice.glsl" s3
      let (p4, s5) := compileProgram "TimeDistributed.copySliceOutput.glsl" s4
      let (p5, s6) := compileProgram "TimeDistributed.mapSliceOutput.glsl" s5
      .ok ({ l with
              copyTextureProgram := some p1
              mapInputProgram := some p2
              selectSliceProgram := some p3
              copySliceOutputProgram := some p4
              mapSliceOutputProgram := some p5 }, s6)
    else
      .ok (l, s1)

/-- Body of the `TimeDistributed._callCPU` loop: extract slice `i`, call the
wrapped layer on it (modelled as a pure function `g` on tensors, per the
layer-call contract of spec §4.2), write the result into slice `i` of the
output, and count the wrapped-layer invocations.
One iteration of the loop body per unit of fuel, where the fuel is the
number of remaining timesteps (`timesteps - i`); structural recursion on the
fuel so that the kernel can evaluate the loop. -/
def TimeDistributed.loopCPUGo (g : Tensor → Tensor) (x : Tensor) :
    Nat → Tensor → Nat → Nat → Tensor × Nat
  | 0, out, _, calls => (out, calls)
  | fuel + 1, out, i, calls =>
    TimeDistributed.loopCPUGo g x fuel (assignSlice out i (g (x.pick i))) (i + 1) (calls + 1)

/-- The `for (let i = 1; i < timesteps; i++)` loop of
`TimeDistributed._callCPU`, entered at index `i`: runs the body for indices
`i .. timesteps - 1`. -/
def TimeDistributed.loopCPU (g : Tensor → Tensor) (x : Tensor) (timesteps : Nat)
    (out : Tensor) (i : Nat) (calls : Nat) : Tensor × Nat :=
  TimeDistributed.loopCPUGo g x (timesteps - i) out i calls

/-- `TimeDistributed._callCPU`: call the wrapped layer on slice 0, let that
first output determine the full output shape `[timesteps, ...stepOutputShape]`,
allocate the (zero-filled) output, write slice 0, then loop over timesteps
`1 .. timesteps-1`. Returns the output together with the number of
wrapped-layer invocations. -/
def TimeDistributed.callCPU (g : Tensor → Tensor) (x : Tensor) : Tensor × Nat :=
  let step := x.pick 0
  let stepOutput := g step
  let stepOutputShape := stepOutput.shape
  let timesteps := x.shape.headD 0
  let out0 := Tensor.new (timesteps :: stepOutputShape) []
  let out1 := assignSlice out0 0 stepOutput
  TimeDistributed.loopCPU g x timesteps out1 1 1

/-! ### TimeDistributed GPU path -/

/-- Semantics of `TimeDistributed.selectSlice.glsl`: read row `t` (of width
`cols`) of the input texture. -/
def selectSliceTex (xTex : List Int) (cols t : Nat) : List Int :=
  (xTex.drop (t * cols)).take cols

/-- Semantics of `mapInput.glsl`: gather — each output texel reads the input
texture at the (row, col) coordinate given by the index-map textures. -/
def gatherTex (xTex : List Int) (xCols : Nat) (rowMap colMap : List Int) : List Int :=
  (rowMap.zip colMap).map (fun rc => xTex.getD (rc.1.toNat * xCols + rc.2.toNat) 0)

/-- Semantics of `TimeDistributed.mapSliceOutput.glsl`: scatter — each output
texel keeps the `outputCopy` value where the index map is `-1` and otherwise
reads `sliceOutput` at the mapped (row, col) coordinate. -/
def scatterTex (copyTex sliceTex : List Int) (sliceCols : Nat) (rowMap colMap : List Int) :
    List Int :=
  ((rowMap.zip colMap).zip copyTex).map
    (fun rcc => if rcc.1.1 < 0 then rcc.2
                else sliceTex.getD (rcc.1.1.toNat * sliceCols + rcc.1.2.toNat) 0)

/-- One loop iteration of `TimeDistributed._createIndexMap`: extract slice
`t` of the row/col index data, square-reshape both, give both a device
texture, and push them onto the accumulated collections. -/
def TimeDistributed.indexMapStep (sliceShape : List Nat) (sz : Nat)
    (rowData colData : List Int) (acc : List Tensor × List Tensor × GPUState) (t : Nat) :
    List Tensor × List Tensor × GPUState :=
  let sliceIndicesRow : Tensor := { shape := sliceShape, data := sliceData rowData sz t }
  let sliceIndicesCol : Tensor := { shape := sliceShape, data := sliceData colData sz t }
  let r1 := sliceIndicesRow.reshapeTo2DSquare.createGLTexture acc.2.2
  let r2 := sliceIndicesCol.reshapeTo2DSquare.createGLTexture r1.2
  (acc.1 ++ [r1.1], acc.2.1 ++ [r2.1], r2.2)

/-- `TimeDistributed._createIndexMap`: build, once per wrapper instance
(early return when both collections already exist), one pair of square-
reshaped integer index-map textures per timestep, each holding slice `t` of
the input's `indicesForReshaped` row/col data. -/
def TimeDistributed.createIndexMap (l : TDLayer) (rowData colData : List Int) (s : GPUState) :
    TDLayer × GPUState :=
  if l.rowIndexMaps.isSome && l.colIndexMaps.isSome then (l, s)
  else
    let timesteps := l.inputShape.headD 0
    let sliceShape := l.inputShape.tail
    let sz := prodl sliceShape
    let built := (List.range timesteps).foldl
      (TimeDistributed.indexMapStep sliceShape sz rowData colData) ([], [], s)
    ({ l with rowIndexMaps := some built.1, colIndexMaps := some built.2.1 }, built.2.2)

/-- One loop iteration of `TimeDistributed._createOutputIndexMap`: an
output-shaped tensor filled with `-1` except slice `t`, which holds the
slice output's index data; square-reshaped, textured, and pushed. -/
def TimeDistributed.outputIndexMapStep (outputShape : List Nat) (sz : Nat)
    (rowData colData : List Int) (acc : List Tensor × List Tensor × GPUState) (t : Nat) :
    List Tensor × List Tensor × GPUState :=
  let base := List.replicate (prodl outputShape) (-1 : Int)
  let outputIndicesRow : Tensor := { shape := outputShape, data := spliceData base sz t rowData }
  let outputIndicesCol : Tensor := { shape := outputShape, data := spliceData base sz t colData }
  let r1 := outputIndicesRow.reshapeTo2DSquare.createGLTexture acc.2.2
  let r2 := outputIndicesCol.reshapeTo2DSquare.createGLTexture r1.2
  (acc.1 ++ [r1.1], acc.2.1 ++ [r2.1], r2.2)

/-- `TimeDistributed._createOutputIndexMap`: build, once per wrapper instance
(early return when both collections already exist), one pair of square-
reshaped integer index-map textures per timestep. -/
def TimeDistributed.createOutputIndexMap (l : TDLayer) (rowData colData : List Int)
    (s : GPUState) : TDLayer × GPUState :=
  if l.outputRowIndexMaps.isSome && l.outputColIndexMaps.isSome then (l, s)
  else
    let timesteps := l.outputShape.headD 0
    let sliceShape := l.outputShape.tail
    let sz := prodl sliceShape
    let built := (List.range timesteps).foldl
      (TimeDistributed.outputIndexMapStep l.outputShape sz rowData colData) ([], [], s)
    ({ l with outputRowIndexMaps := some built.1, outputColIndexMaps := some built.2.1 },
     built.2.2)

/-- Slice-extraction and wrapped-layer step of `TimeDistributed._callGPU`
for timestep `t`: run `selectSlice` (rank ≤ 2) or the `mapInput` gather
(rank > 2) into the `slice` scratch texture, then invoke the wrapped layer's
device path on it; `sliceOutput` is the wrapped layer's output. -/
def TimeDistributed.selectPhase (l : TDLayer) (x : Tensor) (t : Nat) (s : GPUState) :
    TDLayer × Tensor × GPUState :=
  let sliceShape := l.inputShape.tail
  let slice := l.slice.getD default
  let r1 :=
    if l.inputShape.length ≤ 2 then
      runProgram slice (selectSliceTex x.textureData (prodl sliceShape) t) s
    else
      let rowMap := (l.rowIndexMaps.getD []).getD t default
      let colMap := (l.colIndexMaps.getD []).getD t default
      runProgram slice
        (gatherTex x.textureData (x.glTextureShape.getD 1 1) rowMap.textureData colMap.textureData) s
  let r2 := Activation.callGPU l.wrappedLayer r1.1 r1.2
  ({ l with wrappedLayer := r2.1, slice := some r2.2.1, sliceOutput := some r2.2.2.1 },
   r2.2.2.1, r2.2.2.2)

/-- Output-accumulation step of `TimeDistributed._callGPU` for timestep `t`:
read-copy-write — copy the current output texture into `outputCopy`
(`copyTexture`), then run `copySliceOutput` (rank ≤ 2: overwrite row `t`
with the slice output) or the `mapSliceOutput` scatter (rank > 2) into the
output texture. -/
def TimeDistributed.writePhase (l : TDLayer) (sliceOutput : Tensor) (t : Nat) (s : GPUState) :
    TDLayer × GPUState :=
  let output := l.output.getD default
  let outputCopy := l.outputCopy.getD default
  let r1 := runProgram outputCopy output.textureData s
  let outSliceSz := prodl l.outputShape.tail
  let r2 :=
    if l.inputShape.length ≤ 2 then
      runProgram output
        (spliceData r1.1.textureData outSliceSz t (sliceOutput.textureData.take outSliceSz)) r1.2
    else
      let rowMap := (l.outputRowIndexMaps.getD []).getD t default
      let colMap := (l.outputColIndexMaps.getD []).getD t default
      runProgram output
        (scatterTex r1.1.textureData sliceOutput.textureData
          (sliceOutput.glTextureShape.getD 1 1) rowMap.textureData colMap.textureData) r1.2
  ({ l with output := some r2.1, outputCopy := some r1.1 }, r2.2)

/-- Output bootstrap of `TimeDistributed._callGPU` (`if (!this.output)`):
establish the output shape from the first timestep's slice output, allocate
the `output`/`outputCopy` pair (square-reshaped when rank > 2) with device
textures, and for rank > 2 build the output-side index maps. -/
def TimeDistributed.ensureOutput (l : TDLayer) (sliceOutput : Tensor) (timesteps : Nat)
    (s : GPUState) : TDLayer × GPUState :=
  match l.output with
  | some _ => (l, s)
  | none =>
    if l.inputShape.length ≤ 2 then
      let outputShape := [timesteps, sliceOutput.glTextureShape.getD 1 0]
      let r1 := (Tensor.new outputShape []).createGLTexture s
      let r2 := (Tensor.new outputShape []).createGLTexture r1.2
      ({ l with outputShape := outputShape, output := some r1.1, outputCopy := some r2.1 },
       r2.2)
    else
      let outputShape := timesteps :: sliceOutput.originalShape
      let r1 := (Tensor.new outputShape []).reshapeTo2DSquare.createGLTexture s
      let r2 := (Tensor.new outputShape []).reshapeTo2DSquare.createGLTexture r1.2
      let l1 := { l with
                   outputShape := outputShape
                   output := some r1.1
                   outputCopy := some r2.1 }
      TimeDistributed.createOutputIndexMap l1 sliceOutput.indicesRow sliceOutput.indicesCol r2.2

/-- One iteration of the device-path loop body per unit of fuel (`timesteps - i`
remaining timesteps); structural recursion on the fuel so that the kernel
can evaluate the loop. -/
def TimeDistributed.loopGPUGo (x : Tensor) : Nat → TDLayer → Nat → GPUState →
    TDLayer × GPUState
  | 0, l, _, s => (l, s)
  | fuel + 1, l, i, s =>
    let r1 := TimeDistributed.selectPhase l x i s
    let r2 := TimeDistributed.writePhase r1.1 r1.2.1 i r1.2.2
    TimeDistributed.loopGPUGo x fuel r2.1 (i + 1) r2.2

/-- The `for (let i = 1; i < timesteps; i++)` loop of
`TimeDistributed._callGPU`, entered at index `i`: per timestep, the
slice/wrapped-call phase followed by the read-copy-write output phase. -/
def TimeDistributed.loopGPU (l : TDLayer) (x : Tensor) (timesteps : Nat) (i : Nat)
    (s : GPUState) : TDLayer × GPUState :=
  TimeDistributed.loopGPUGo x (timesteps - i) l i s

/-- Terminal block of `TimeDistributed._callGPU`: when the wrapper's
outbound consumer list is empty, transfer the output off the device and, if
it is 2-D-reshaped, invert the square reshape; otherwise leave the output
device-resident. -/
def TimeDistributed.terminalTransfer (outbound : List (Option Nat)) (out : Tensor)
    (s : GPUState) : Tensor × GPUState :=
  if outbound.length = 0 then
    let r := out.transferFromGLTexture s
    if r.1.is2DReshaped then (r.1.reshapeFrom2DSquare, r.2) else r
  else (out, s)

/-- Input-texture block of `TimeDistributed._callGPU`
(`if (!x.glTexture) ...`): give the input a texture, square-reshaping a
rank > 2 input that is not yet reshaped. -/
def TimeDistributed.prepInput (x : Tensor) (s : GPUState) : Tensor × GPUState :=
  if x.glTexture.isNone then
    if x.shape.length ≤ 2 then x.createGLTexture s
    else if ¬x.is2DReshaped then x.reshapeTo2DSquare.createGLTexture s
    else (x, s)
  else (x, s)

/-- Index-map block of `TimeDistributed._callGPU`
(`if (this.inputShape.length > 2) this._createIndexMap(...)`). -/
def TimeDistributed.prepMaps (l : TDLayer) (x1 : Tensor) (s : GPUState) : TDLayer × GPUState :=
  if 2 < l.inputShape.length then
    TimeDistributed.createIndexMap l x1.indicesRow x1.indicesCol s
  else (l, s)

/-- Slice-scratch block of `TimeDistributed._callGPU` (`if (!this.slice)`):
create the per-timestep slice texture once, square-reshaped when the slice
rank exceeds 2. -/
def TimeDistributed.ensureSlice (l : TDLayer) (sliceShape : List Nat) (s : GPUState) :
    TDLayer × GPUState :=
  match l.slice with
  | some _ => (l, s)
  | none =>
    let rt :=
      if sliceShape.length ≤ 2 then (Tensor.new sliceShape []).createGLTexture s
      else (Tensor.new sliceShape []).reshapeTo2DSquare.createGLTexture s
    ({ l with slice := some rt.1 }, rt.2)

/-- All of `TimeDistributed._callGPU` before its terminal block: record the
logical input shape, then the input-texture, index-map and slice-scratch
blocks, then timestep 0 (slice phase, lazy output bootstrap, write phase),
then the loop over the remaining timesteps. -/
def TimeDistributed.runAll (l : TDLayer) (x : Tensor) (s : GPUState) :
    TDLayer × Tensor × GPUState :=
  let l0 := { l with inputShape := if x.is2DReshaped then x.originalShape else x.shape }
  let rx := TimeDistributed.prepInput x s
  let rm := TimeDistributed.prepMaps l0 rx.1 rx.2
  let timesteps := l0.inputShape.headD 0
  let sliceShape := l0.inputShape.tail
  let rs := TimeDistributed.ensureSlice rm.1 sliceShape rm.2
  let rp := TimeDistributed.selectPhase rs.1 rx.1 0 rs.2
  let ro := TimeDistributed.ensureOutput rp.1 rp.2.1 timesteps rp.2.2
  let rw := TimeDistributed.writePhase ro.1 rp.2.1 0 ro.2
  let rl := TimeDistributed.loopGPU rw.1 rx.1 timesteps 1 rw.2
  (rl.1, rx.1, rl.2)

/-- `TimeDistributed._callGPU`: the phases of `TimeDistributed.runAll`
followed by the terminal-transfer policy on the wrapper's own output.
Returns the updated layer, the output, and the backend state. -/
def TimeDistributed.callGPU (l : TDLayer) (x : Tensor) (s : GPUState) :
    TDLayer × Tensor × GPUState :=
  let r := TimeDistributed.runAll l x s
  let rt := TimeDistributed.terminalTransfer r.1.outbound (r.1.output.getD default) r.2.2
  ({ r.1 with output := some rt.1 }, rt.1, rt.2)

/-! ## Helper lemmas: slices of row-major buffers -/

theorem prodl_cons (n : Nat) (ns : List Nat) : prodl (n :: ns) = n * prodl ns := rfl

theorem Tensor.pick_shape (x : Tensor) (t : Nat) : (x.pick t).shape = x.shape.tail := rfl

theorem Tensor.pick_data (x : Tensor) (t : Nat) :
    (x.pick t).data = sliceData x.data (prodl x.shape.tail) t := rfl

theorem sliceData_length {d : List Int} {sz t : Nat} (h : (t + 1) * sz ≤ d.length) :
    (sliceData d sz t).length = sz := by
  have h1 : (t + 1) * sz = t * sz + sz := by ring
  rw [h1] at h
  simp only [sliceData, List.length_take, List.length_drop]
  omega

theorem spliceData_length {d src : List Int} {sz t : Nat}
    (hd : (t + 1) * sz ≤ d.length) (hsrc : src.length = sz) :
    (spliceData d sz t src).length = d.length := by
  have h1 : (t + 1) * sz = t * sz + sz := by ring
  rw [h1] at hd
  simp only [spliceData, List.length_append, List.length_take, List.length_drop, hsrc]
  omega

theorem sliceData_spliceData_self {d src : List Int} {sz t : Nat}
    (hd : (t + 1) * sz ≤ d.length) (hsrc : src.length = sz) :
    sliceData (spliceData d sz t src) sz t = src := by
  have h1 : (t + 1) * sz = t * sz + sz := by ring
  rw [h1] at hd
  have hlen : (d.take (t * sz)).length = t * sz := by
    simp only [List.length_take]; omega
  simp only [sliceData, spliceData, List.append_assoc]
  rw [List.drop_left' hlen, List.take_left' hsrc]

theorem sliceData_spliceData_lt {d src : List Int} {sz t i : Nat}
    (hti : t < i) (hd : (i + 1) * sz ≤ d.length) (hsrc : src.length = sz) :
    sliceData (spliceData d sz i src) sz t = sliceData d sz t := by
  have h1 : (i + 1) * sz = i * sz + sz := by ring
  rw [h1] at hd
  have h2 : (t + 1) * sz ≤ i * sz := Nat.mul_le_mul_right _ hti
  have h3 : (t + 1) * sz = t * sz + sz := by ring
  rw [h3] at h2
  have hlen : t * sz ≤ (d.take (i * sz)).length := by
    simp only [List.length_take]; omega
  simp only [sliceData, spliceData, List.append_assoc]
  rw [List.drop_append_of_le_length hlen]
  have hlen2 : sz ≤ ((d.take (i * sz)).drop (t * sz)).length := by
    simp only [List.length_take, List.length_drop]; omega
  rw [List.take_append_of_le_length hlen2]
  rw [List.drop_take, List.take_take]
  congr 1
  omega

/-! ## The TimeDistributed CPU loop invariant -/

theorem loopCPU_spec (g : Tensor → Tensor) (x : Tensor) (T : Nat)
    (stepShape outShape : List Nat)
    (hx : x.shape = T :: stepShape)
    (hxlen : x.data.length = T * prodl stepShape)
    (hg : ∀ s : Tensor, s.shape = stepShape → s.data.length = prodl stepShape →
            (g s).shape = outShape ∧ (g s).data.length = prodl outShape) :
    ∀ k i, T - i = k → ∀ (out : Tensor) (calls : Nat),
      out.shape = T :: outShape →
      out.data.length = T * prodl outShape →
      (∀ t, t < i → sliceData out.data (prodl outShape) t = (g (x.pick t)).data) →
      (TimeDistributed.loopCPU g x T out i calls).2 = calls + (T - i) ∧
      (TimeDistributed.loopCPU g x T out i calls).1.shape = T :: outShape ∧
      (TimeDistributed.loopCPU g x T out i calls).1.data.length = T * prodl outShape ∧
      (∀ t, t < T →
        sliceData (TimeDistributed.loopCPU g x T out i calls).1.data (prodl outShape) t =
          (g (x.pick t)).data) := by
  intro k
  induction k with
  | zero =>
    intro i hk out calls hshape hlen hprev
    unfold TimeDistributed.loopCPU
    rw [hk]
    simp only [TimeDistributed.loopCPUGo]
    exact ⟨by omega, hshape, hlen, fun t ht => hprev t (by omega)⟩
  | succ k ih =>
    intro i hk out calls hshape hlen hprev
    have hiT : i < T := by omega
    have hfix : TimeDistributed.loopCPU g x T out i calls =
        TimeDistributed.loopCPU g x T (assignSlice out i (g (x.pick i))) (i + 1) (calls + 1) := by
      unfold TimeDistributed.loopCPU
      rw [hk, show T - (i + 1) = k from by omega]
      simp only [TimeDistributed.loopCPUGo]
    rw [hfix]
    have hpick_shape : (x.pick i).shape = stepShape := by
      simp [Tensor.pick, hx]
    have hpick_len : (x.pick i).data.length = prodl stepShape := by
      have hb : (i + 1) * prodl stepShape ≤ x.data.length := by
        rw [hxlen]; exact Nat.mul_le_mul_right _ hiT
      simp only [Tensor.pick, hx, List.tail_cons]
      exact sliceData_length hb
    obtain ⟨hgs, hgl⟩ := hg _ hpick_shape hpick_len
    have hsplice : (i + 1) * prodl outShape ≤ out.data.length := by
      rw [hlen]; exact Nat.mul_le_mul_right _ hiT
    have hdata : (assignSlice out i (g (x.pick i))).data =
        spliceData out.data (prodl outShape) i (g (x.pick i)).data := by
      simp [assignSlice, hshape]
    have happ := ih (i + 1) (by omega) (assignSlice out i (g (x.pick i))) (calls + 1)
      (by simp [assignSlice, hshape])
      (by rw [hdata, spliceData_length hsplice hgl]; exact hlen)
      (by
        intro t ht
        rw [hdata]
        rcases Nat.lt_or_ge t i with hlt | hge
        · rw [sliceData_spliceData_lt hlt hsplice hgl]
          exact hprev t hlt
        · have : t = i := by omega
          subst this
          exact sliceData_spliceData_self hsplice hgl)
    exact ⟨by rw [happ.1]; omega, happ.2.1, happ.2.2.1, happ.2.2.2⟩

/-- C1: for an input with time-axis length `T ≥ 1`, the TimeDistributed CPU
path invokes the wrapped layer's call exactly `T` times, the output has
shape `[T, ...stepOutputShape]`, and the output slice at each `t < T` equals
the wrapped layer's output for slice `x[t]` computed on its own. (The input
satisfies the tensor invariant `data.length = product(shape)` of spec §3 and
the wrapped layer satisfies the layer-call contract of spec §4.2: inputs of
equal shape yield outputs of one fixed shape `outShape`.) -/
theorem timeDistributed_cpu_per_timestep
    (g : Tensor → Tensor) (x : Tensor) (T : Nat) (stepShape outShape : List Nat)
    (hx : x.shape = T :: stepShape) (hT : 1 ≤ T)
    (hxlen : x.data.length = prodl x.shape)
    (hg : ∀ s : Tensor, s.shape = stepShape → s.data.length = prodl stepShape →
            (g s).shape = outShape ∧ (g s).data.length = prodl outShape) :
    (TimeDistributed.callCPU g x).2 = T ∧
    (TimeDistributed.callCPU g x).1.shape = T :: outShape ∧
    ∀ t, t < T →
      ((TimeDistributed.callCPU g x).1.pick t).shape = (g (x.pick t)).shape ∧
      ((TimeDistributed.callCPU g x).1.pick t).data = (g (x.pick t)).data := by
  have hxlen' : x.data.length = T * prodl stepShape := by
    rw [hxlen, hx, prodl_cons]
  have hpick : ∀ t, t < T →
      (x.pick t).shape = stepShape ∧ (x.pick t).data.length = prodl stepShape := by
    intro t ht
    constructor
    · simp [Tensor.pick, hx]
    · have hb : (t + 1) * prodl stepShape ≤ x.data.length := by
        rw [hxlen']; exact Nat.mul_le_mul_right _ ht
      simp only [Tensor.pick, hx, List.tail_cons]
      exact sliceData_length hb
  obtain ⟨hp0s, hp0l⟩ := hpick 0 (by omega)
  obtain ⟨hg0s, hg0l⟩ := hg _ hp0s hp0l
  have hcall : TimeDistributed.callCPU g x =
      TimeDistributed.loopCPU g x T
        (assignSlice (Tensor.new (T :: outShape) []) 0 (g (x.pick 0))) 1 1 := by
    simp only [TimeDistributed.callCPU, hx, List.headD_cons, hg0s]
  have hout0_len : (Tensor.new (T :: outShape) []).data.length = T * prodl outShape := by
    simp [Tensor.new, prodl_cons]
  have hsplice0 : (0 + 1) * prodl outShape ≤ (Tensor.new (T :: outShape) []).data.length := by
    rw [hout0_len]
    have := Nat.mul_le_mul_right (prodl outShape) hT
    omega
  have hdata0 : (assignSlice (Tensor.new (T :: outShape) []) 0 (g (x.pick 0))).data =
      spliceData (Tensor.new (T :: outShape) []).data (prodl outShape) 0 (g (x.pick 0)).data := by
    simp [assignSlice, Tensor.new]
  have happ := loopCPU_spec g x T stepShape outShape hx hxlen' hg (T - 1) 1 (by omega)
    (assignSlice (Tensor.new (T :: outShape) []) 0 (g (x.pick 0))) 1
    (by simp [assignSlice, Tensor.new])
    (by rw [hdata0, spliceData_length hsplice0 hg0l]; exact hout0_len)
    (by
      intro t ht
      have : t = 0 := by omega
      subst this
      rw [hdata0]
      exact sliceData_spliceData_self hsplice0 hg0l)
  rw [hcall]
  refine ⟨by rw [happ.1]; omega, happ.2.1, ?_⟩
  intro t ht
  obtain ⟨hps, hpl⟩ := hpick t ht
  obtain ⟨hgs, _⟩ := hg _ hps hpl
  constructor
  · rw [Tensor.pick_shape, happ.2.1, List.tail_cons, hgs]
  · rw [Tensor.pick_data, happ.2.1, List.tail_cons]
    exact happ.2.2.2 t ht

/-- C1 witness: TimeDistributed wrapping an elementwise relu on a `[3,1,2]`
input (the concrete scenario of spec §8): 3 wrapped-layer invocations,
output shape `[3,1,2]`, and each output slice equal to relu of the input
slice. -/
theorem timeDistributed_cpu_per_timestep_witness :
    (TimeDistributed.callCPU
        (fun s => { shape := s.shape, data := s.data.map (fun v => max v 0) })
        { shape := [3, 1, 2], data := [-1, 1, 2, -2, 0, 3] }).2 = 3 ∧
    (TimeDistributed.callCPU
        (fun s => { shape := s.shape, data := s.data.map (fun v => max v 0) })
        { shape := [3, 1, 2], data := [-1, 1, 2, -2, 0, 3] }).1.shape = [3, 1, 2] ∧
    ∀ t, t < 3 →
      ((TimeDistributed.callCPU
          (fun s => { shape := s.shape, data := s.data.map (fun v => max v 0) })
          { shape := [3, 1, 2], data := [-1, 1, 2, -2, 0, 3] }).1.pick t).shape =
        ((fun s => { shape := s.shape, data := s.data.map (fun v => max v 0) } : Tensor → Tensor)
          (Tensor.pick { shape := [3, 1, 2], data := [-1, 1, 2, -2, 0, 3] } t)).shape ∧
      ((TimeDistributed.callCPU
          (fun s => { shape := s.shape, data := s.data.map (fun v => max v 0) })
          { shape := [3, 1, 2], data := [-1, 1, 2, -2, 0, 3] }).1.pick t).data =
        ((fun s => { shape := s.shape, data := s.data.map (fun v => max v 0) } : Tensor → Tensor)
          (Tensor.pick { shape := [3, 1, 2], data := [-1, 1, 2, -2, 0, 3] } t)).data :=
  timeDistributed_cpu_per_timestep
    (fun s => { shape := s.shape, data := s.data.map (fun v => max v 0) })
    { shape := [3, 1, 2], data := [-1, 1, 2, -2, 0, 3] } 3 [1, 2] [1, 2]
    rfl (by decide) (by decide)
    (fun s h1 h2 => ⟨h1, by rw [List.length_map]; exact h2⟩)

/-- C4: calling an Activation layer whose activation is `'linear'` returns
the very same tensor `x` (stored as the layer's output), with the backend
state completely untouched — no texture allocation, no program run, no
transfer — on both the CPU and the device path (the short-circuit happens
before the backend dispatch). -/
theorem activation_linear_identity (l : ActLayer) (x : Tensor) (s : GPUState)
    (h : l.activation = "linear") :
    Activation.call l x s = .ok ({ l with output := some x }, x, x, s) := by
  simp [Activation.call, h]

/-- C4 witness: a concrete linear Activation layer on the GPU path returns
its input unchanged with an unchanged backend state. -/
theorem activation_linear_identity_witness :
    Activation.call
        { layerClass := "Activation", activation := "linear",
          activationFunc := activations "linear", gpu := true, outbound := [],
          program := some 0, output := none }
        { shape := [2, 3], data := [-1, 2, -3, 4, 0, 5] }
        { nextHandle := 1, runCount := 0, transferCount := 0 } =
      .ok ({ layerClass := "Activation", activation := "linear",
             activationFunc := activations "linear", gpu := true, outbound := [],
             program := some 0,
             output := some { shape := [2, 3], data := [-1, 2, -3, 4, 0, 5] } },
           { shape := [2, 3], data := [-1, 2, -3, 4, 0, 5] },
           { shape := [2, 3], data := [-1, 2, -3, 4, 0, 5] },
           { nextHandle := 1, runCount := 0, transferCount := 0 }) :=
  activation_linear_identity _ _ _ rfl

/-- C7: the Activation CPU path leaves the input tensor completely unchanged
and returns a freshly allocated output (no device fields, in particular no
aliasing of the input's texture) holding a copy of the input's buffer with
the input's shape, with the elementwise function applied over that copy
only. -/
theorem activation_cpu_frame (l : ActLayer) (x : Tensor) (f : Int → Int)
    (h : l.activationFunc = some f) :
    Activation.callCPU l x = .ok (x, { shape := x.shape, data := x.data.map f }) := by
  simp [Activation.callCPU, h]

/-- C7 witness: relu on the concrete `[2,3]` scenario of spec §8: the input
is returned unmodified and the output is the relu image of a fresh copy. -/
theorem activation_cpu_frame_witness :
    Activation.callCPU
        { layerClass := "Activation", activation := "relu",
          activationFunc := activations "relu", gpu := false, outbound := [],
          program := none, output := none }
        { shape := [2, 3], data := [-1, 2, -3, 4, 0, 5] } =
      .ok ({ shape := [2, 3], data := [-1, 2, -3, 4, 0, 5] },
           { shape := [2, 3], data := [0, 2, 0, 4, 0, 5] }) := by
  have h := activation_cpu_frame
    { layerClass := "Activation", activation := "relu",
      activationFunc := activations "relu", gpu := false, outbound := [],
      program := none, output := none }
    { shape := [2, 3], data := [-1, 2, -3, 4, 0, 5] }
    (fun v => max v 0) rfl
  rw [h]
  rfl

/-- C3 counterexample: constructing an Activation layer (CPU backend) with
the name `"bogus"`, which is not present in the activation-function catalog,
does **not** raise: construction succeeds, storing `undefined` (`none`) as
the activation function — there is no `ConfigurationError` at construction
time, contrary to the claim. -/
theorem activation_unknown_name_no_construction_error :
    activations "bogus" = none ∧
    Activation.new { activation := some "bogus", gpu := false } default =
      .ok ({ layerClass := "Activation", activation := "bogus",
             activationFunc := none, gpu := false, outbound := [],
             program := none, output := none }, default) :=
  ⟨rfl, rfl⟩

/-- C3 (amended): for a name absent from the activation catalog, the
Activation constructor performs no validation: on the CPU backend
construction succeeds with an `undefined` activation function and the
failure is deferred to call time (a `TypeError` when the stored non-function
is invoked); on the GPU backend construction fails, but with a
module-resolution error from the shader `require`, not a
`ConfigurationError`. -/
theorem activation_unknown_name_fails_at_call_time (name : String) (s st : GPUState)
    (x : Tensor) (h1 : activations name = none) (h2 : name ≠ "linear") :
    (∃ l, Activation.new { activation := some name, gpu := false } s = .ok (l, s) ∧
      l.activationFunc = none ∧
      Activation.call l x st = .error (.typeError (name ++ " is not a function"))) ∧
    Activation.new { activation := some name, gpu := true } s =
      .error (.moduleNotFoundError ("Cannot find module ./" ++ name ++ ".glsl")) := by
  constructor
  · refine ⟨{ layerClass := "Activation", activation := name,
              activationFunc := activations name, gpu := false, outbound := [],
              program := none, output := none }, ?_, ?_, ?_⟩
    · simp [Activation.new]
    · simpa using h1
    · simp [Activation.call, Activation.callCPU, h1, h2]
  · simp [Activation.new, shaderSource, h1]

/-- C3 (amended) witness: the name `"bogus"`: CPU construction succeeds with
an undefined activation function and a call fails with a `TypeError`; GPU
construction fails with a module-not-found error. -/
theorem activation_unknown_name_fails_at_call_time_witness :
    (∃ l, Activation.new { activation := some "bogus", gpu := false } default =
        .ok (l, default) ∧
      l.activationFunc = none ∧
      Activation.call l { shape := [1], data := [5] } default =
        .error (.typeError ("bogus" ++ " is not a function"))) ∧
    Activation.new { activation := some "bogus", gpu := true } default =
      .error (.moduleNotFoundError ("Cannot find module ./" ++ "bogus" ++ ".glsl")) :=
  activation_unknown_name_fails_at_call_time "bogus" default default
    { shape := [1], data := [5] } rfl (by decide)

/-- C10: an Activation layer constructed from a configuration with no
activation name defaults to `'linear'` and is a pure passthrough: every call
returns the input tensor itself with the backend state untouched. -/
theorem activation_default_is_linear_passthrough (g : Bool) (x : Tensor)
    (s s0 s1 : GPUState) (l : ActLayer)
    (h : Activation.new { activation := none, gpu := g } s0 = .ok (l, s1)) :
    l.activation = "linear" ∧
    Activation.call l x s = .ok ({ l with output := some x }, x, x, s) := by
  cases g
  case false =>
    rw [show Activation.new { activation := none, gpu := false } s0 =
        .ok ({ layerClass := "Activation", activation := "linear",
               activationFunc := activations "linear", gpu := false, outbound := [],
               program := none, output := none }, s0) from rfl] at h
    simp only [Except.ok.injEq, Prod.mk.injEq] at h
    obtain ⟨h1, _⟩ := h
    subst h1
    exact ⟨rfl, by simp [Activation.call]⟩
  case true =>
    rw [show Activation.new { activation := none, gpu := true } s0 =
        .ok ({ layerClass := "Activation", activation := "linear",
               activationFunc := activations "linear", gpu := true, outbound := [],
               program := some s0.nextHandle, output := none },
             { s0 with nextHandle := s0.nextHandle + 1 }) from rfl] at h
    simp only [Except.ok.injEq, Prod.mk.injEq] at h
    obtain ⟨h1, _⟩ := h
    subst h1
    exact ⟨rfl, by simp [Activation.call]⟩

/-- C10 witness: an Activation layer built from the empty configuration on
the CPU backend is the linear variant and passes a concrete tensor through
unchanged. -/
theorem activation_default_is_linear_passthrough_witness :
    ({ layerClass := "Activation", activation := "linear",
       activationFunc := activations "linear", gpu := false, outbound := [],
       program := none, output := none } : ActLayer).activation = "linear" ∧
    Activation.call
        { layerClass := "Activation", activation := "linear",
          activationFunc := activations "linear", gpu := false, outbound := [],
          program := none, output := none }
        { shape := [2], data := [7, -8] } default =
      .ok ({ layerClass := "Activation", activation := "linear",
             activationFunc := activations "linear", gpu := false, outbound := [],
             program := none,
             output := some { shape := [2], data := [7, -8] } },
           { shape := [2], data := [7, -8] },
           { shape := [2], data := [7, -8] }, default) :=
  activation_default_is_linear_passthrough false { shape := [2], data := [7, -8] }
    default default default _ rfl

/-- The layer catalog never raises a `ConfigurationError`: its only failure
modes are an unknown tag (`TypeError`) and a failing shader `require` inside
the wrapped constructor (`moduleNotFoundError`). -/
theorem layersCatalog_no_config_error (n : String) (a : ActAttrs) (s : GPUState)
    (e : KError) (msg : String) (h : layersCatalog n a s = .error e) :
    e ≠ .configurationError msg := by
  unfold layersCatalog Activation.new at h
  dsimp only at h
  split at h
  · split at h
    · cases hss : shaderSource (a.activation.getD "linear") with
      | none =>
        rw [hss] at h
        simp only [Except.error.injEq] at h
        subst h
        simp
      | some src =>
        rw [hss] at h
        simp at h
    · simp at h
  · simp only [Except.error.injEq] at h
    subst h
    simp

/-- C9: constructing a TimeDistributed wrapper from a configuration with no
wrapped-layer entry raises `ConfigurationError` `"wrapped layer is
undefined."` before any wrapped layer is instantiated; with a wrapped-layer
entry present, construction never fails with that error. -/
theorem timeDistributed_missing_layer_error :
    (∀ (g : Bool) (s : GPUState),
      TimeDistributed.new { layer := none, gpu := g } s =
        .error (.configurationError "wrapped layer is undefined.")) ∧
    (∀ (attrs : TDAttrs) (cfg : LayerConfig) (s : GPUState), attrs.layer = some cfg →
      TimeDistributed.new attrs s ≠
        .error (.configurationError "wrapped layer is undefined.")) := by
  constructor
  · intro g s; rfl
  · intro attrs cfg s h
    unfold TimeDistributed.new
    rw [h]
    dsimp only
    cases hcat : layersCatalog cfg.class_name
        { activation := cfg.config.activation, gpu := attrs.gpu } s with
    | error e =>
      dsimp only
      intro heq
      simp only [Except.error.injEq] at heq
      exact layersCatalog_no_config_error cfg.class_name
        { activation := cfg.config.activation, gpu := attrs.gpu } s e
        "wrapped layer is undefined." hcat heq
    | ok p =>
      obtain ⟨wrapped, s1⟩ := p
      dsimp only
      split <;> simp

/-- C9 witness: the error is raised at a concrete empty configuration, and a
concrete configuration with a wrapped-layer entry does not produce it. -/
theorem timeDistributed_missing_layer_error_witness :
    TimeDistributed.new { layer := none, gpu := false } default =
      .error (.configurationError "wrapped layer is undefined.") ∧
    TimeDistributed.new
        { layer := some { class_name := "Activation", config := { activation := some "relu" } },
          gpu := false } default ≠
      .error (.configurationError "wrapped layer is undefined.") :=
  ⟨timeDistributed_missing_layer_error.1 false default,
   timeDistributed_missing_layer_error.2
     { layer := some { class_name := "Activation", config := { activation := some "relu" } },
       gpu := false }
     { class_name := "Activation", config := { activation := some "relu" } } default rfl⟩

/-! ## Helper lemmas: the Activation device path -/

theorem Activation.ensureInputTexture_transferCount (x : Tensor) (s : GPUState) :
    (Activation.ensureInputTexture x s).2.transferCount = s.transferCount := by
  unfold Activation.ensureInputTexture Tensor.createGLTexture
  split <;> rfl

theorem Activation.ensureOutput_transferCount (l : ActLayer) (x1 : Tensor) (s : GPUState) :
    (Activation.ensureOutput l x1 s).2.transferCount = s.transferCount := by
  unfold Activation.ensureOutput
  split <;> rfl

theorem Activation.terminalTransfer_transferCount (ob : List (Option Nat)) (out : Tensor)
    (s : GPUState) :
    (Activation.terminalTransfer ob out s).2.transferCount =
      s.transferCount + (if ob.length = 0 then 1 else 0) := by
  unfold Activation.terminalTransfer
  split
  · rename_i h
    dsimp only
    split <;> simp [Tensor.transferFromGLTexture, h]
  · rename_i h
    simp [h]

theorem Activation.terminalTransfer_glTexture (ob : List (Option Nat)) (out : Tensor)
    (s : GPUState) :
    (Activation.terminalTransfer ob out s).1.glTexture = out.glTexture ∧
    (Activation.terminalTransfer ob out s).1.glTextureShape = out.glTextureShape := by
  unfold Activation.terminalTransfer
  split
  · dsimp only
    split <;> exact ⟨rfl, rfl⟩
  · exact ⟨rfl, rfl⟩

theorem Activation.ensureOutput_some (l : ActLayer) (x1 : Tensor) (s : GPUState) (o : Tensor)
    (h : l.output = some o) : Activation.ensureOutput l x1 s = (o, s) := by
  unfold Activation.ensureOutput
  rw [h]

theorem Activation.ensureOutput_none_glTexture (l : ActLayer) (x1 : Tensor) (s : GPUState)
    (h : l.output = none) :
    (Activation.ensureOutput l x1 s).1.glTexture = some s.nextHandle := by
  unfold Activation.ensureOutput
  rw [h]
  dsimp only
  split
  · rfl
  · split <;> rfl

/-- `Activation._callGPU` changes the layer only by storing the produced
output tensor. -/
theorem Activation.callGPU_layer (l : ActLayer) (x : Tensor) (s : GPUState) :
    (Activation.callGPU l x s).1 =
      { l with output := some (Activation.callGPU l x s).2.2.1 } := rfl

/-- Whole-call transfer accounting of `Activation._callGPU`: exactly one
device-to-host transfer when the outbound list is empty, none otherwise. -/
theorem Activation.callGPU_transferCount (l : ActLayer) (x : Tensor) (s : GPUState) :
    (Activation.callGPU l x s).2.2.2.transferCount =
      s.transferCount + (if l.outbound.length = 0 then 1 else 0) := by
  unfold Activation.callGPU
  dsimp only
  rw [Activation.terminalTransfer_transferCount]
  show (Activation.ensureOutput _ _ _).2.transferCount + _ = _
  rw [Activation.ensureOutput_transferCount, Activation.ensureInputTexture_transferCount]

/-! ## Helper lemmas: the TimeDistributed device path -/

theorem foldl_invariant {α β : Type} (P : α → Prop) (g : α → β → α)
    (hg : ∀ a b, P a → P (g a b)) : ∀ (ts : List β) (a : α), P a → P (ts.foldl g a) := by
  intro ts
  induction ts with
  | nil => intro a ha; exact ha
  | cons t ts ih => intro a ha; exact ih _ (hg a t ha)

theorem TimeDistributed.createIndexMap_frame (l : TDLayer) (r c : List Int) (s : GPUState) :
    (TimeDistributed.createIndexMap l r c s).1.outbound = l.outbound ∧
    (TimeDistributed.createIndexMap l r c s).1.wrappedLayer = l.wrappedLayer ∧
    (TimeDistributed.createIndexMap l r c s).1.output = l.output ∧
    (TimeDistributed.createIndexMap l r c s).1.outputCopy = l.outputCopy ∧
    (TimeDistributed.createIndexMap l r c s).1.outputShape = l.outputShape ∧
    (TimeDistributed.createIndexMap l r c s).1.inputShape = l.inputShape ∧
    (TimeDistributed.createIndexMap l r c s).1.slice = l.slice ∧
    (TimeDistributed.createIndexMap l r c s).1.outputRowIndexMaps = l.outputRowIndexMaps ∧
    (TimeDistributed.createIndexMap l r c s).1.outputColIndexMaps = l.outputColIndexMaps := by
  unfold TimeDistributed.createIndexMap
  split <;> exact ⟨rfl, rfl, rfl, rfl, rfl, rfl, rfl, rfl, rfl⟩

theorem TimeDistributed.createIndexMap_transferCount (l : TDLayer) (r c : List Int)
    (s : GPUState) :
    (TimeDistributed.createIndexMap l r c s).2.transferCount = s.transferCount := by
  unfold TimeDistributed.createIndexMap
  split
  · rfl
  · exact foldl_invariant
      (fun acc : List Tensor × List Tensor × GPUState =>
        acc.2.2.transferCount = s.transferCount)
      (TimeDistributed.indexMapStep l.inputShape.tail (prodl l.inputShape.tail) r c)
      (fun a b ha => ha) (List.range (l.inputShape.headD 0)) ([], [], s) rfl

theorem TimeDistributed.createOutputIndexMap_frame (l : TDLayer) (r c : List Int)
    (s : GPUState) :
    (TimeDistributed.createOutputIndexMap l r c s).1.outbound = l.outbound ∧
    (TimeDistributed.createOutputIndexMap l r c s).1.wrappedLayer = l.wrappedLayer ∧
    (TimeDistributed.createOutputIndexMap l r c s).1.output = l.output ∧
    (TimeDistributed.createOutputIndexMap l r c s).1.outputCopy = l.outputCopy ∧
    (TimeDistributed.createOutputIndexMap l r c s).1.outputShape = l.outputShape ∧
    (TimeDistributed.createOutputIndexMap l r c s).1.inputShape = l.inputShape ∧
    (TimeDistributed.createOutputIndexMap l r c s).1.slice = l.slice ∧
    (TimeDistributed.createOutputIndexMap l r c s).1.rowIndexMaps = l.rowIndexMaps ∧
    (TimeDistributed.createOutputIndexMap l r c s).1.colIndexMaps = l.colIndexMaps := by
  unfold TimeDistributed.createOutputIndexMap
  split <;> exact ⟨rfl, rfl, rfl, rfl, rfl, rfl, rfl, rfl, rfl⟩

theorem TimeDistributed.createOutputIndexMap_transferCount (l : TDLayer) (r c : List Int)
    (s : GPUState) :
    (TimeDistributed.createOutputIndexMap l r c s).2.transferCount = s.transferCount := by
  unfold TimeDistributed.createOutputIndexMap
  split
  · rfl
  · exact foldl_invariant
      (fun acc : List Tensor × List Tensor × GPUState =>
        acc.2.2.transferCount = s.transferCount)
      (TimeDistributed.outputIndexMapStep l.outputShape (prodl l.outputShape.tail) r c)
      (fun a b ha => ha) (List.range (l.outputShape.headD 0)) ([], [], s) rfl

theorem TimeDistributed.createIndexMap_guard (l : TDLayer) (r c : List Int) (s : GPUState)
    (h1 : l.rowIndexMaps.isSome) (h2 : l.colIndexMaps.isSome) :
    TimeDistributed.createIndexMap l r c s = (l, s) := by
  unfold TimeDistributed.createIndexMap
  simp [h1, h2]

theorem TimeDistributed.createOutputIndexMap_guard (l : TDLayer) (r c : List Int)
    (s : GPUState) (h1 : l.outputRowIndexMaps.isSome) (h2 : l.outputColIndexMaps.isSome) :
    TimeDistributed.createOutputIndexMap l r c s = (l, s) := by
  unfold TimeDistributed.createOutputIndexMap
  simp [h1, h2]

theorem TimeDistributed.createIndexMap_built (l : TDLayer) (r c : List Int) (s : GPUState) :
    (TimeDistributed.createIndexMap l r c s).1.rowIndexMaps.isSome ∧
    (TimeDistributed.createIndexMap l r c s).1.colIndexMaps.isSome ∨
    (TimeDistributed.createIndexMap l r c s).1.rowIndexMaps = l.rowIndexMaps ∧
    (TimeDistributed.createIndexMap l r c s).1.colIndexMaps = l.colIndexMaps := by
  unfold TimeDistributed.createIndexMap
  split
  · right; exact ⟨rfl, rfl⟩
  · left; exact ⟨rfl, rfl⟩

theorem TimeDistributed.selectPhase_frame (l : TDLayer) (x : Tensor) (t : Nat) (s : GPUState) :
    (TimeDistributed.selectPhase l x t s).1.outbound = l.outbound ∧
    (TimeDistributed.selectPhase l x t s).1.output = l.output ∧
    (TimeDistributed.selectPhase l x t s).1.outputCopy = l.outputCopy ∧
    (TimeDistributed.selectPhase l x t s).1.outputShape = l.outputShape ∧
    (TimeDistributed.selectPhase l x t s).1.inputShape = l.inputShape ∧
    (TimeDistributed.selectPhase l x t s).1.rowIndexMaps = l.rowIndexMaps ∧
    (TimeDistributed.selectPhase l x t s).1.colIndexMaps = l.colIndexMaps ∧
    (TimeDistributed.selectPhase l x t s).1.outputRowIndexMaps = l.outputRowIndexMaps ∧
    (TimeDistributed.selectPhase l x t s).1.outputColIndexMaps = l.outputColIndexMaps ∧
    (TimeDistributed.selectPhase l x t s).1.wrappedLayer.outbound = l.wrappedLayer.outbound :=
  ⟨rfl, rfl, rfl, rfl, rfl, rfl, rfl, rfl, rfl, rfl⟩

theorem TimeDistributed.selectPhase_transferCount (l : TDLayer) (x : Tensor) (t : Nat)
    (s : GPUState) :
    (TimeDistributed.selectPhase l x t s).2.2.transferCount =
      s.transferCount + (if l.wrappedLayer.outbound.length = 0 then 1 else 0) := by
  unfold TimeDistributed.selectPhase
  dsimp only
  rw [Activation.callGPU_transferCount]
  congr 1
  split <;> rfl

theorem TimeDistributed.writePhase_frame (l : TDLayer) (so : Tensor) (t : Nat) (s : GPUState) :
    (TimeDistributed.writePhase l so t s).1.outbound = l.outbound ∧
    (TimeDistributed.writePhase l so t s).1.wrappedLayer = l.wrappedLayer ∧
    (TimeDistributed.writePhase l so t s).1.outputShape = l.outputShape ∧
    (TimeDistributed.writePhase l so t s).1.inputShape = l.inputShape ∧
    (TimeDistributed.writePhase l so t s).1.slice = l.slice ∧
    (TimeDistributed.writePhase l so t s).1.rowIndexMaps = l.rowIndexMaps ∧
    (TimeDistributed.writePhase l so t s).1.colIndexMaps = l.colIndexMaps ∧
    (TimeDistributed.writePhase l so t s).1.outputRowIndexMaps = l.outputRowIndexMaps ∧
    (TimeDistributed.writePhase l so t s).1.outputColIndexMaps = l.outputColIndexMaps :=
  ⟨rfl, rfl, rfl, rfl, rfl, rfl, rfl, rfl, rfl⟩

theorem TimeDistributed.writePhase_output_glTexture (l : TDLayer) (so : Tensor) (t : Nat)
    (s : GPUState) :
    ((TimeDistributed.writePhase l so t s).1.output.getD default).glTexture =
      (l.output.getD default).glTexture ∧
    ((TimeDistributed.writePhase l so t s).1.output.getD default).glTextureShape =
      (l.output.getD default).glTextureShape ∧
    ((TimeDistributed.writePhase l so t s).1.outputCopy.getD default).glTexture =
      (l.outputCopy.getD default).glTexture ∧
    ((TimeDistributed.writePhase l so t s).1.outputCopy.getD default).glTextureShape =
      (l.outputCopy.getD default).glTextureShape := by
  unfold TimeDistributed.writePhase
  dsimp only
  refine ⟨?_, ?_, rfl, rfl⟩ <;> (split <;> rfl)

theorem TimeDistributed.writePhase_transferCount (l : TDLayer) (so : Tensor) (t : Nat)
    (s : GPUState) :
    (TimeDistributed.writePhase l so t s).2.transferCount = s.transferCount := by
  unfold TimeDistributed.writePhase
  dsimp only
  split <;> rfl

theorem TimeDistributed.ensureOutput_skip (l : TDLayer) (so : Tensor) (T : Nat) (s : GPUState)
    (h : l.output.isSome) : TimeDistributed.ensureOutput l so T s = (l, s) := by
  cases ho : l.output with
  | none => rw [ho] at h; simp at h
  | some o => unfold TimeDistributed.ensureOutput; rw [ho]

theorem TimeDistributed.ensureOutput_frame (l : TDLayer) (so : Tensor) (T : Nat)
    (s : GPUState) :
    (TimeDistributed.ensureOutput l so T s).1.outbound = l.outbound ∧
    (TimeDistributed.ensureOutput l so T s).1.wrappedLayer = l.wrappedLayer ∧
    (TimeDistributed.ensureOutput l so T s).1.inputShape = l.inputShape ∧
    (TimeDistributed.ensureOutput l so T s).1.rowIndexMaps = l.rowIndexMaps ∧
    (TimeDistributed.ensureOutput l so T s).1.colIndexMaps = l.colIndexMaps ∧
    (TimeDistributed.ensureOutput l so T s).1.slice = l.slice ∧
    (TimeDistributed.ensureOutput l so T s).2.transferCount = s.transferCount := by
  unfold TimeDistributed.ensureOutput
  split
  · exact ⟨rfl, rfl, rfl, rfl, rfl, rfl, rfl⟩
  · split
    · exact ⟨rfl, rfl, rfl, rfl, rfl, rfl, rfl⟩
    · dsimp only
      obtain ⟨h1, h2, _, _, _, h6, h7, h8, h9⟩ :=
        TimeDistributed.createOutputIndexMap_frame
          { l with
              outputShape := T :: so.originalShape
              output := some ((Tensor.new (T :: so.originalShape) []).reshapeTo2DSquare.createGLTexture s).1
              outputCopy := some ((Tensor.new (T :: so.originalShape) []).reshapeTo2DSquare.createGLTexture
                ((Tensor.new (T :: so.originalShape) []).reshapeTo2DSquare.createGLTexture s).2).1 }
          so.indicesRow so.indicesCol
          ((Tensor.new (T :: so.originalShape) []).reshapeTo2DSquare.createGLTexture
            ((Tensor.new (T :: so.originalShape) []).reshapeTo2DSquare.createGLTexture s).2).2
      exact ⟨h1, h2, h6, h8, h9, h7, TimeDistributed.createOutputIndexMap_transferCount _ _ _ _⟩

theorem TimeDistributed.loopGPUGo_frame (x : Tensor) :
    ∀ k i (l : TDLayer) (s : GPUState),
      (TimeDistributed.loopGPUGo x k l i s).1.outbound = l.outbound ∧
      (TimeDistributed.loopGPUGo x k l i s).1.wrappedLayer.outbound = l.wrappedLayer.outbound ∧
      (TimeDistributed.loopGPUGo x k l i s).1.rowIndexMaps = l.rowIndexMaps ∧
      (TimeDistributed.loopGPUGo x k l i s).1.colIndexMaps = l.colIndexMaps ∧
      (TimeDistributed.loopGPUGo x k l i s).1.outputRowIndexMaps = l.outputRowIndexMaps ∧
      (TimeDistributed.loopGPUGo x k l i s).1.outputColIndexMaps = l.outputColIndexMaps ∧
      (TimeDistributed.loopGPUGo x k l i s).1.inputShape = l.inputShape ∧
      (TimeDistributed.loopGPUGo x k l i s).1.outputShape = l.outputShape ∧
      ((TimeDistributed.loopGPUGo x k l i s).1.output.getD default).glTexture =
        (l.output.getD default).glTexture ∧
      ((TimeDistributed.loopGPUGo x k l i s).1.output.getD default).glTextureShape =
        (l.output.getD default).glTextureShape ∧
      ((TimeDistributed.loopGPUGo x k l i s).1.outputCopy.getD default).glTexture =
        (l.outputCopy.getD default).glTexture ∧
      ((TimeDistributed.loopGPUGo x k l i s).1.outputCopy.getD default).glTextureShape =
        (l.outputCopy.getD default).glTextureShape := by
  intro k
  induction k with
  | zero =>
    intro i l s
    exact ⟨rfl, rfl, rfl, rfl, rfl, rfl, rfl, rfl, rfl, rfl, rfl, rfl⟩
  | succ k ih =>
    intro i l s
    simp only [TimeDistributed.loopGPUGo]
    obtain ⟨a1, a2, a3, a4, a5, a6, a7, a8, a9, a10, a11, a12⟩ := ih (i + 1)
      (TimeDistributed.writePhase (TimeDistributed.selectPhase l x i s).1
        (TimeDistributed.selectPhase l x i s).2.1 i (TimeDistributed.selectPhase l x i s).2.2).1
      (TimeDistributed.writePhase (TimeDistributed.selectPhase l x i s).1
        (TimeDistributed.selectPhase l x i s).2.1 i (TimeDistributed.selectPhase l x i s).2.2).2
    obtain ⟨w1, w2, w3, w4, w5, w6, w7, w8, w9⟩ :=
      TimeDistributed.writePhase_frame (TimeDistributed.selectPhase l x i s).1
        (TimeDistributed.selectPhase l x i s).2.1 i (TimeDistributed.selectPhase l x i s).2.2
    obtain ⟨g1, g2, g3, g4⟩ :=
      TimeDistributed.writePhase_output_glTexture (TimeDistributed.selectPhase l x i s).1
        (TimeDistributed.selectPhase l x i s).2.1 i (TimeDistributed.selectPhase l x i s).2.2
    obtain ⟨p1, p2, p3, p4, p5, p6, p7, p8, p9, p10⟩ :=
      TimeDistributed.selectPhase_frame l x i s
    refine ⟨a1.trans (w1.trans p1), a2.trans ((congrArg ActLayer.outbound w2).trans p10),
      a3.trans (w6.trans p6), a4.trans (w7.trans p7), a5.trans (w8.trans p8),
      a6.trans (w9.trans p9), a7.trans (w4.trans p5), a8.trans (w3.trans p4),
      a9.trans (g1.trans ?_), a10.trans (g2.trans ?_),
      a11.trans (g3.trans ?_), a12.trans (g4.trans ?_)⟩
    · rw [p2]
    · rw [p2]
    · rw [p3]
    · rw [p3]

theorem TimeDistributed.loopGPU_frame' (l : TDLayer) (x : Tensor) (T i : Nat) (s : GPUState) :
    (TimeDistributed.loopGPU l x T i s).1.outbound = l.outbound ∧
    (TimeDistributed.loopGPU l x T i s).1.wrappedLayer.outbound = l.wrappedLayer.outbound ∧
    (TimeDistributed.loopGPU l x T i s).1.rowIndexMaps = l.rowIndexMaps ∧
    (TimeDistributed.loopGPU l x T i s).1.colIndexMaps = l.colIndexMaps ∧
    (TimeDistributed.loopGPU l x T i s).1.outputRowIndexMaps = l.outputRowIndexMaps ∧
    (TimeDistributed.loopGPU l x T i s).1.outputColIndexMaps = l.outputColIndexMaps ∧
    (TimeDistributed.loopGPU l x T i s).1.inputShape = l.inputShape ∧
    (TimeDistributed.loopGPU l x T i s).1.outputShape = l.outputShape ∧
    ((TimeDistributed.loopGPU l x T i s).1.output.getD default).glTexture =
      (l.output.getD default).glTexture ∧
    ((TimeDistributed.loopGPU l x T i s).1.output.getD default).glTextureShape =
      (l.output.getD default).glTextureShape ∧
    ((TimeDistributed.loopGPU l x T i s).1.outputCopy.getD default).glTexture =
      (l.outputCopy.getD default).glTexture ∧
    ((TimeDistributed.loopGPU l x T i s).1.outputCopy.getD default).glTextureShape =
      (l.outputCopy.getD default).glTextureShape :=
  TimeDistributed.loopGPUGo_frame x (T - i) i l s

theorem TimeDistributed.loopGPU_outbound (l : TDLayer) (x : Tensor) (T i : Nat)
    (s : GPUState) : (TimeDistributed.loopGPU l x T i s).1.outbound = l.outbound :=
  (TimeDistributed.loopGPU_frame' l x T i s).1

theorem TimeDistributed.loopGPU_wrappedOutbound (l : TDLayer) (x : Tensor) (T i : Nat)
    (s : GPUState) :
    (TimeDistributed.loopGPU l x T i s).1.wrappedLayer.outbound = l.wrappedLayer.outbound :=
  (TimeDistributed.loopGPU_frame' l x T i s).2.1

theorem TimeDistributed.loopGPUGo_transferCount (x : Tensor) :
    ∀ k i (l : TDLayer) (s : GPUState),
      l.wrappedLayer.outbound ≠ [] →
      (TimeDistributed.loopGPUGo x k l i s).2.transferCount = s.transferCount := by
  intro k
  induction k with
  | zero =>
    intro i l s _
    rfl
  | succ k ih =>
    intro i l s hw
    simp only [TimeDistributed.loopGPUGo]
    obtain ⟨-, w2, -, -, -, -, -, -, -⟩ :=
      TimeDistributed.writePhase_frame (TimeDistributed.selectPhase l x i s).1
        (TimeDistributed.selectPhase l x i s).2.1 i (TimeDistributed.selectPhase l x i s).2.2
    obtain ⟨-, -, -, -, -, -, -, -, -, p10⟩ := TimeDistributed.selectPhase_frame l x i s
    have hw2 : (TimeDistributed.writePhase (TimeDistributed.selectPhase l x i s).1
        (TimeDistributed.selectPhase l x i s).2.1 i
        (TimeDistributed.selectPhase l x i s).2.2).1.wrappedLayer.outbound ≠ [] := by
      rw [w2, p10]; exact hw
    rw [ih (i + 1) _ _ hw2]
    rw [TimeDistributed.writePhase_transferCount, TimeDistributed.selectPhase_transferCount]
    have hlen : ¬l.wrappedLayer.outbound.length = 0 := by
      intro h0
      exact hw (List.length_eq_zero.mp h0)
    rw [if_neg hlen]
    rfl

theorem TimeDistributed.loopGPU_transferCount' (l : TDLayer) (x : Tensor) (T i : Nat)
    (s : GPUState) (hw : l.wrappedLayer.outbound ≠ []) :
    (TimeDistributed.loopGPU l x T i s).2.transferCount = s.transferCount :=
  TimeDistributed.loopGPUGo_transferCount x (T - i) i l s hw


theorem TimeDistributed.selectPhase_outbound (l : TDLayer) (x : Tensor) (t : Nat)
    (s : GPUState) : (TimeDistributed.selectPhase l x t s).1.outbound = l.outbound := rfl

theorem TimeDistributed.writePhase_outbound (l : TDLayer) (so : Tensor) (t : Nat)
    (s : GPUState) : (TimeDistributed.writePhase l so t s).1.outbound = l.outbound := rfl

theorem TimeDistributed.ensureOutput_outbound (l : TDLayer) (so : Tensor) (T : Nat)
    (s : GPUState) : (TimeDistributed.ensureOutput l so T s).1.outbound = l.outbound :=
  (TimeDistributed.ensureOutput_frame l so T s).1

theorem TimeDistributed.ensureOutput_wrappedLayer (l : TDLayer) (so : Tensor) (T : Nat)
    (s : GPUState) :
    (TimeDistributed.ensureOutput l so T s).1.wrappedLayer = l.wrappedLayer :=
  (TimeDistributed.ensureOutput_frame l so T s).2.1

theorem TimeDistributed.ensureOutput_transferCountTD (l : TDLayer) (so : Tensor) (T : Nat)
    (s : GPUState) :
    (TimeDistributed.ensureOutput l so T s).2.transferCount = s.transferCount :=
  (TimeDistributed.ensureOutput_frame l so T s).2.2.2.2.2.2

theorem TimeDistributed.prepInput_transferCount (x : Tensor) (s : GPUState) :
    (TimeDistributed.prepInput x s).2.transferCount = s.transferCount := by
  unfold TimeDistributed.prepInput
  split
  · split
    · rfl
    · split <;> rfl
  · rfl

theorem TimeDistributed.prepMaps_frame (l : TDLayer) (x1 : Tensor) (s : GPUState) :
    (TimeDistributed.prepMaps l x1 s).1.outbound = l.outbound ∧
    (TimeDistributed.prepMaps l x1 s).1.wrappedLayer = l.wrappedLayer ∧
    (TimeDistributed.prepMaps l x1 s).1.output = l.output ∧
    (TimeDistributed.prepMaps l x1 s).1.outputCopy = l.outputCopy ∧
    (TimeDistributed.prepMaps l x1 s).1.outputShape = l.outputShape ∧
    (TimeDistributed.prepMaps l x1 s).1.inputShape = l.inputShape ∧
    (TimeDistributed.prepMaps l x1 s).1.slice = l.slice ∧
    (TimeDistributed.prepMaps l x1 s).1.outputRowIndexMaps = l.outputRowIndexMaps ∧
    (TimeDistributed.prepMaps l x1 s).1.outputColIndexMaps = l.outputColIndexMaps ∧
    (TimeDistributed.prepMaps l x1 s).2.transferCount = s.transferCount := by
  unfold TimeDistributed.prepMaps
  split
  · obtain ⟨h1, h2, h3, h4, h5, h6, h7, h8, h9⟩ :=
      TimeDistributed.createIndexMap_frame l x1.indicesRow x1.indicesCol s
    exact ⟨h1, h2, h3, h4, h5, h6, h7, h8, h9,
      TimeDistributed.createIndexMap_transferCount l x1.indicesRow x1.indicesCol s⟩
  · exact ⟨rfl, rfl, rfl, rfl, rfl, rfl, rfl, rfl, rfl, rfl⟩

theorem TimeDistributed.ensureSlice_frame (l : TDLayer) (sh : List Nat) (s : GPUState) :
    (TimeDistributed.ensureSlice l sh s).1.outbound = l.outbound ∧
    (TimeDistributed.ensureSlice l sh s).1.wrappedLayer = l.wrappedLayer ∧
    (TimeDistributed.ensureSlice l sh s).1.output = l.output ∧
    (TimeDistributed.ensureSlice l sh s).1.outputCopy = l.outputCopy ∧
    (TimeDistributed.ensureSlice l sh s).1.outputShape = l.outputShape ∧
    (TimeDistributed.ensureSlice l sh s).1.inputShape = l.inputShape ∧
    (TimeDistributed.ensureSlice l sh s).1.rowIndexMaps = l.rowIndexMaps ∧
    (TimeDistributed.ensureSlice l sh s).1.colIndexMaps = l.colIndexMaps ∧
    (TimeDistributed.ensureSlice l sh s).1.outputRowIndexMaps = l.outputRowIndexMaps ∧
    (TimeDistributed.ensureSlice l sh s).1.outputColIndexMaps = l.outputColIndexMaps ∧
    (TimeDistributed.ensureSlice l sh s).2.transferCount = s.transferCount := by
  unfold TimeDistributed.ensureSlice
  split
  · exact ⟨rfl, rfl, rfl, rfl, rfl, rfl, rfl, rfl, rfl, rfl, rfl⟩
  · dsimp only
    refine ⟨rfl, rfl, rfl, rfl, rfl, rfl, rfl, rfl, rfl, rfl, ?_⟩
    split <;> rfl

/-- `TimeDistributed.runAll` (everything before the terminal block) changes
neither the wrapper's own outbound list nor the wrapped layer's. -/
theorem TimeDistributed.runAll_outbound (l : TDLayer) (x : Tensor) (s : GPUState) :
    (TimeDistributed.runAll l x s).1.outbound = l.outbound ∧
    (TimeDistributed.runAll l x s).1.wrappedLayer.outbound = l.wrappedLayer.outbound := by
  unfold TimeDistributed.runAll
  dsimp only
  constructor
  · rw [TimeDistributed.loopGPU_outbound, TimeDistributed.writePhase_outbound,
        TimeDistributed.ensureOutput_outbound, TimeDistributed.selectPhase_outbound,
        (TimeDistributed.ensureSlice_frame _ _ _).1, (TimeDistributed.prepMaps_frame _ _ _).1]
  · rw [TimeDistributed.loopGPU_wrappedOutbound,
        congrArg ActLayer.outbound (TimeDistributed.writePhase_frame _ _ _ _).2.1,
        congrArg ActLayer.outbound (TimeDistributed.ensureOutput_wrappedLayer _ _ _ _),
        (TimeDistributed.selectPhase_frame _ _ _ _).2.2.2.2.2.2.2.2.2,
        congrArg ActLayer.outbound (TimeDistributed.ensureSlice_frame _ _ _).2.1,
        congrArg ActLayer.outbound (TimeDistributed.prepMaps_frame _ _ _).2.1]

/-- `TimeDistributed.runAll` performs no device-to-host transfer when the
wrapped layer's outbound list is non-empty: all its transfers would come
from the wrapped layer's terminal branch, which is then unreachable. -/
theorem TimeDistributed.runAll_transferCount (l : TDLayer) (x : Tensor) (s : GPUState)
    (hw : l.wrappedLayer.outbound ≠ []) :
    (TimeDistributed.runAll l x s).2.2.transferCount = s.transferCount := by
  have hlen : ¬l.wrappedLayer.outbound.length = 0 := by
    intro h0
    exact hw (List.length_eq_zero.mp h0)
  unfold TimeDistributed.runAll
  dsimp only
  have hwRW : ∀ (lz : TDLayer) (so so' : Tensor) (t : Nat) (st st' : GPUState),
      (TimeDistributed.writePhase (TimeDistributed.ensureOutput
          (TimeDistributed.selectPhase lz so t st).1
          (TimeDistributed.selectPhase lz so t st).2.1 (lz.inputShape.headD 0)
          (TimeDistributed.selectPhase lz so t st).2.2).1 so' t st').1.wrappedLayer.outbound =
        lz.wrappedLayer.outbound := by
    intro lz so so' t st st'
    rw [congrArg ActLayer.outbound (TimeDistributed.writePhase_frame _ _ _ _).2.1,
        congrArg ActLayer.outbound (TimeDistributed.ensureOutput_wrappedLayer _ _ _ _),
        (TimeDistributed.selectPhase_frame _ _ _ _).2.2.2.2.2.2.2.2.2]
  rw [TimeDistributed.loopGPU_transferCount' _ _ _ _ _ ?hwl]
  case hwl =>
    rw [congrArg ActLayer.outbound (TimeDistributed.writePhase_frame _ _ _ _).2.1,
        congrArg ActLayer.outbound (TimeDistributed.ensureOutput_wrappedLayer _ _ _ _),
        (TimeDistributed.selectPhase_frame _ _ _ _).2.2.2.2.2.2.2.2.2,
        congrArg ActLayer.outbound (TimeDistributed.ensureSlice_frame _ _ _).2.1,
        congrArg ActLayer.outbound (TimeDistributed.prepMaps_frame _ _ _).2.1]
    exact hw
  rw [TimeDistributed.writePhase_transferCount, TimeDistributed.ensureOutput_transferCountTD,
      TimeDistributed.selectPhase_transferCount,
      (TimeDistributed.ensureSlice_frame _ _ _).2.2.2.2.2.2.2.2.2.2,
      congrArg ActLayer.outbound (TimeDistributed.ensureSlice_frame _ _ _).2.1,
      (TimeDistributed.prepMaps_frame _ _ _).2.2.2.2.2.2.2.2.2,
      congrArg ActLayer.outbound (TimeDistributed.prepMaps_frame _ _ _).2.1,
      TimeDistributed.prepInput_transferCount]
  dsimp only
  rw [if_neg hlen]
  rfl

theorem TimeDistributed.terminalTransfer_transferCountTD (ob : List (Option Nat)) (out : Tensor)
    (s : GPUState) :
    (TimeDistributed.terminalTransfer ob out s).2.transferCount =
      s.transferCount + (if ob.length = 0 then 1 else 0) := by
  unfold TimeDistributed.terminalTransfer
  split
  · rename_i h
    dsimp only
    split <;> simp [Tensor.transferFromGLTexture, h]
  · rename_i h
    simp [h]

theorem TimeDistributed.terminalTransfer_glTextureTD (ob : List (Option Nat)) (out : Tensor)
    (s : GPUState) :
    (TimeDistributed.terminalTransfer ob out s).1.glTexture = out.glTexture ∧
    (TimeDistributed.terminalTransfer ob out s).1.glTextureShape = out.glTextureShape := by
  unfold TimeDistributed.terminalTransfer
  split
  · dsimp only
    split <;> exact ⟨rfl, rfl⟩
  · exact ⟨rfl, rfl⟩

theorem ite_length_eq_ite_nil (ob : List (Option Nat)) :
    (if ob.length = 0 then (1 : Nat) else 0) = (if ob = [] then 1 else 0) := by
  cases ob <;> simp

/-- C6: the TimeDistributed constructor forces the wrapped layer's outbound
list to the non-empty sentinel `[null]`, and, for every wrapper state whose
wrapped layer has a non-empty outbound list, a device-path call preserves
that list and performs exactly the wrapper's own terminal transfer (one when
the wrapper is terminal, none otherwise) — the wrapped layer's
terminal-transfer branch contributes no transfer, its result staying
device-resident for the wrapper to consume. -/
theorem timeDistributed_wrapped_sentinel :
    (∀ (attrs : TDAttrs) (s : GPUState) (w : TDLayer) (s' : GPUState),
      TimeDistributed.new attrs s = .ok (w, s') → w.wrappedLayer.outbound = [none]) ∧
    (∀ (l : TDLayer) (x : Tensor) (st : GPUState), l.wrappedLayer.outbound ≠ [] →
      (TimeDistributed.callGPU l x st).1.wrappedLayer.outbound = l.wrappedLayer.outbound ∧
      (TimeDistributed.callGPU l x st).2.2.transferCount =
        st.transferCount + (if l.outbound = [] then 1 else 0)) := by
  constructor
  · intro attrs s w s' h
    unfold TimeDistributed.new at h
    cases hl : attrs.layer with
    | none => rw [hl] at h; simp at h
    | some cfg =>
      rw [hl] at h
      dsimp only at h
      cases hcat : layersCatalog cfg.class_name
          { activation := cfg.config.activation, gpu := attrs.gpu } s with
      | error e => rw [hcat] at h; simp at h
      | ok p =>
        rw [hcat] at h
        dsimp only at h
        split at h <;>
          (simp only [Except.ok.injEq, Prod.mk.injEq] at h
           obtain ⟨h1, -⟩ := h
           subst h1
           rfl)
  · intro l x st hw
    constructor
    · show (TimeDistributed.runAll l x st).1.wrappedLayer.outbound = l.wrappedLayer.outbound
      exact (TimeDistributed.runAll_outbound l x st).2
    · show (TimeDistributed.terminalTransfer (TimeDistributed.runAll l x st).1.outbound
          ((TimeDistributed.runAll l x st).1.output.getD default)
          (TimeDistributed.runAll l x st).2.2).2.transferCount = _
      rw [TimeDistributed.terminalTransfer_transferCountTD,
          TimeDistributed.runAll_transferCount l x st hw,
          (TimeDistributed.runAll_outbound l x st).1, ite_length_eq_ite_nil]

/-- C6 witness: a concrete GPU-mode wrapper around a relu Activation layer:
the constructor yields the `[null]` sentinel, and a concrete device call
preserves it while transferring only the wrapper's own (terminal) output. -/
theorem timeDistributed_wrapped_sentinel_witness :
    ({ layerClass := "TimeDistributed", gpu := true, outbound := [],
       wrappedLayer := { layerClass := "Activation", activation := "relu",
                         activationFunc := activations "relu", gpu := true,
                         outbound := [none], program := some 0, output := none },
       copyTextureProgram := some 1, mapInputProgram := some 2, selectSliceProgram := some 3,
       copySliceOutputProgram := some 4, mapSliceOutputProgram := some 5 } :
      TDLayer).wrappedLayer.outbound = [none] ∧
    ((TimeDistributed.callGPU
        { layerClass := "TimeDistributed", gpu := true, outbound := [],
          wrappedLayer := { layerClass := "Activation", activation := "relu",
                            activationFunc := activations "relu", gpu := true,
                            outbound := [none], program := some 0, output := none },
          copyTextureProgram := some 1, mapInputProgram := some 2, selectSliceProgram := some 3,
          copySliceOutputProgram := some 4, mapSliceOutputProgram := some 5 }
        { shape := [2, 3], data := [-1, 2, -3, 4, 0, 5] }
        { nextHandle := 6, runCount := 0, transferCount := 0 }).1.wrappedLayer.outbound =
      [none] ∧
    (TimeDistributed.callGPU
        { layerClass := "TimeDistributed", gpu := true, outbound := [],
          wrappedLayer := { layerClass := "Activation", activation := "relu",
                            activationFunc := activations "relu", gpu := true,
                            outbound := [none], program := some 0, output := none },
          copyTextureProgram := some 1, mapInputProgram := some 2, selectSliceProgram := some 3,
          copySliceOutputProgram := some 4, mapSliceOutputProgram := some 5 }
        { shape := [2, 3], data := [-1, 2, -3, 4, 0, 5] }
        { nextHandle := 6, runCount := 0, transferCount := 0 }).2.2.transferCount = 0 + 1) := by
  refine ⟨timeDistributed_wrapped_sentinel.1
    { layer := some { class_name := "Activation", config := { activation := some "relu" } },
      gpu := true } default _ { nextHandle := 6, runCount := 0, transferCount := 0 } rfl, ?_, ?_⟩
  · exact (timeDistributed_wrapped_sentinel.2 _ _ _ (by simp)).1.trans rfl
  · exact (timeDistributed_wrapped_sentinel.2 _ _ _ (by simp)).2.trans (by simp)

/-- C2: terminal policy of the device path, for both layers. Activation:
exactly when the outbound consumer list is empty, `_callGPU` transfers the
freshly computed texture into the flat buffer and inverts a 2-D reshape, so
the returned output carries its logical shape and flat data; with a
non-empty outbound list the output is returned device-resident, its flat
buffer untouched. TimeDistributed: the same policy applied to the wrapper's
output after `runAll` (the whole pre-terminal computation). Here `pre` names
the output tensor just before the terminal block, obtained from the
equations in the hypotheses. -/
theorem gpu_terminal_policy :
    (∀ (l : ActLayer) (x : Tensor) (s : GPUState) (x1 pre : Tensor) (s1 s2 : GPUState),
      Activation.ensureInputTexture x s = (x1, s1) →
      Activation.ensureOutput l x1 s1 = (pre, s2) →
      (l.outbound = [] →
        (Activation.callGPU l x s).2.2.2.transferCount = s.transferCount + 1 ∧
        (Activation.callGPU l x s).2.2.1.is2DReshaped = false ∧
        (pre.is2DReshaped = true →
          (Activation.callGPU l x s).2.2.1.shape = pre.originalShape ∧
          (Activation.callGPU l x s).2.2.1.data =
            (x1.textureData.map ((activations l.activation).getD (fun v => v))).take
              (prodl pre.originalShape)) ∧
        (pre.is2DReshaped = false →
          (Activation.callGPU l x s).2.2.1.shape = pre.shape ∧
          (Activation.callGPU l x s).2.2.1.data =
            x1.textureData.map ((activations l.activation).getD (fun v => v)))) ∧
      (l.outbound ≠ [] →
        (Activation.callGPU l x s).2.2.2.transferCount = s.transferCount ∧
        (Activation.callGPU l x s).2.2.1 =
          { pre with
              textureData := x1.textureData.map ((activations l.activation).getD (fun v => v)) })) ∧
    (∀ (l : TDLayer) (x : Tensor) (s : GPUState) (l1 : TDLayer) (x1 pre : Tensor)
        (s1 : GPUState),
      TimeDistributed.runAll l x s = (l1, x1, s1) →
      l1.output = some pre →
      (l.outbound = [] →
        (TimeDistributed.callGPU l x s).2.2.transferCount = s1.transferCount + 1 ∧
        (TimeDistributed.callGPU l x s).2.1.is2DReshaped = false ∧
        (pre.is2DReshaped = true →
          (TimeDistributed.callGPU l x s).2.1.shape = pre.originalShape ∧
          (TimeDistributed.callGPU l x s).2.1.data =
            pre.textureData.take (prodl pre.originalShape)) ∧
        (pre.is2DReshaped = false →
          (TimeDistributed.callGPU l x s).2.1 = { pre with data := pre.textureData })) ∧
      (l.outbound ≠ [] →
        (TimeDistributed.callGPU l x s).2.1 = pre ∧
        (TimeDistributed.callGPU l x s).2.2 = s1)) := by
  constructor
  · intro l x s x1 pre s1 s2 hin hout
    constructor
    · intro hob
      have hlen : l.outbound.length = 0 := by rw [hob]; rfl
      refine ⟨?_, ?_, ?_, ?_⟩
      · rw [Activation.callGPU_transferCount, if_pos hlen]
      · unfold Activation.callGPU
        dsimp only
        rw [hin]
        dsimp only
        rw [hout]
        dsimp only
        unfold Activation.terminalTransfer
        rw [if_pos hlen]
        dsimp only
        split
        · rfl
        · rename_i h
          simpa [Tensor.transferFromGLTexture, runProgram] using h
      · intro hre
        unfold Activation.callGPU
        dsimp only
        rw [hin]
        dsimp only
        rw [hout]
        dsimp only
        unfold Activation.terminalTransfer
        rw [if_pos hlen]
        dsimp only
        rw [if_pos (by simpa [Tensor.transferFromGLTexture, runProgram] using hre)]
        exact ⟨rfl, rfl⟩
      · intro hre
        unfold Activation.callGPU
        dsimp only
        rw [hin]
        dsimp only
        rw [hout]
        dsimp only
        unfold Activation.terminalTransfer
        rw [if_pos hlen]
        dsimp only
        rw [if_neg (by simpa [Tensor.transferFromGLTexture, runProgram] using
          (by rw [hre]; exact Bool.false_ne_true : pre.is2DReshaped ≠ true))]
        exact ⟨rfl, rfl⟩
    · intro hob
      have hlen : ¬l.outbound.length = 0 := fun h => hob (List.length_eq_zero.mp h)
      constructor
      · rw [Activation.callGPU_transferCount, if_neg hlen]
        rfl
      · unfold Activation.callGPU
        dsimp only
        rw [hin]
        dsimp only
        rw [hout]
        dsimp only
        unfold Activation.terminalTransfer
        rw [if_neg hlen]
        rfl
  · intro l x s l1 x1 pre s1 hrun hpre
    have hte : (TimeDistributed.callGPU l x s).2 =
        TimeDistributed.terminalTransfer l1.outbound pre s1 := by
      unfold TimeDistributed.callGPU
      dsimp only
      rw [hrun]
      dsimp only
      rw [hpre]
      rfl
    have hob1 : l1.outbound = l.outbound := by
      have := (TimeDistributed.runAll_outbound l x s).1
      rw [hrun] at this
      exact this
    constructor
    · intro hob
      have hlen : l1.outbound.length = 0 := by rw [hob1, hob]; rfl
      refine ⟨?_, ?_, ?_, ?_⟩
      · show ((TimeDistributed.callGPU l x s).2).2.transferCount = _
        rw [hte, TimeDistributed.terminalTransfer_transferCountTD, if_pos hlen]
      · show ((TimeDistributed.callGPU l x s).2).1.is2DReshaped = false
        rw [hte]
        unfold TimeDistributed.terminalTransfer
        rw [if_pos hlen]
        dsimp only
        split
        · rfl
        · rename_i h
          simpa [Tensor.transferFromGLTexture] using h
      · intro hre
        have h2 : ((TimeDistributed.callGPU l x s).2).1.shape = pre.originalShape ∧
            ((TimeDistributed.callGPU l x s).2).1.data =
              pre.textureData.take (prodl pre.originalShape) := by
          rw [hte]
          unfold TimeDistributed.terminalTransfer
          rw [if_pos hlen]
          dsimp only
          rw [if_pos (by simpa [Tensor.transferFromGLTexture] using hre)]
          exact ⟨rfl, rfl⟩
        exact h2
      · intro hre
        show ((TimeDistributed.callGPU l x s).2).1 = _
        rw [hte]
        unfold TimeDistributed.terminalTransfer
        rw [if_pos hlen]
        dsimp only
        rw [if_neg (by simpa [Tensor.transferFromGLTexture] using
          (by rw [hre]; exact Bool.false_ne_true : pre.is2DReshaped ≠ true))]
        rfl
    · intro hob
      have hlen : ¬l1.outbound.length = 0 := by
        rw [hob1]
        exact fun h => hob (List.length_eq_zero.mp h)
      constructor
      · show ((TimeDistributed.callGPU l x s).2).1 = pre
        rw [hte]
        unfold TimeDistributed.terminalTransfer
        rw [if_neg hlen]
      · show ((TimeDistributed.callGPU l x s).2).2 = s1
        rw [hte]
        unfold TimeDistributed.terminalTransfer
        rw [if_neg hlen]

theorem TimeDistributed.ensureOutput_none_created (l : TDLayer) (so : Tensor) (T : Nat)
    (s : GPUState) (h : l.output = none) :
    ((TimeDistributed.ensureOutput l so T s).1.output.getD default).glTexture =
      some s.nextHandle ∧
    ((TimeDistributed.ensureOutput l so T s).1.outputCopy.getD default).glTexture =
      some (s.nextHandle + 1) ∧
    (TimeDistributed.ensureOutput l so T s).1.output.isSome ∧
    (TimeDistributed.ensureOutput l so T s).1.outputCopy.isSome := by
  unfold TimeDistributed.ensureOutput
  rw [h]
  dsimp only
  split
  · exact ⟨rfl, rfl, rfl, rfl⟩
  · obtain ⟨-, -, h3, h4, -, -, -, -, -⟩ :=
      TimeDistributed.createOutputIndexMap_frame
        { l with
            outputShape := T :: so.originalShape
            output := some ((Tensor.new (T :: so.originalShape) []).reshapeTo2DSquare.createGLTexture s).1
            outputCopy := some ((Tensor.new (T :: so.originalShape) []).reshapeTo2DSquare.createGLTexture
              ((Tensor.new (T :: so.originalShape) []).reshapeTo2DSquare.createGLTexture s).2).1 }
        so.indicesRow so.indicesCol
        ((Tensor.new (T :: so.originalShape) []).reshapeTo2DSquare.createGLTexture
          ((Tensor.new (T :: so.originalShape) []).reshapeTo2DSquare.createGLTexture s).2).2
    refine ⟨?_, ?_, ?_, ?_⟩
    · rw [h3]; rfl
    · rw [h4]; rfl
    · rw [h3]; rfl
    · rw [h4]; rfl

theorem TimeDistributed.runAll_output_created (l : TDLayer) (x : Tensor) (s : GPUState)
    (h : l.output = none) :
    ((TimeDistributed.runAll l x s).1.output.getD default).glTexture.isSome := by
  unfold TimeDistributed.runAll
  dsimp only
  rw [(TimeDistributed.loopGPU_frame' _ _ _ _ _).2.2.2.2.2.2.2.2.1,
      (TimeDistributed.writePhase_output_glTexture _ _ _ _).1,
      (TimeDistributed.ensureOutput_none_created _ _ _ _
        (by rw [(TimeDistributed.selectPhase_frame _ _ _ _).2.1,
                (TimeDistributed.ensureSlice_frame _ _ _).2.2.1,
                (TimeDistributed.prepMaps_frame _ _ _).2.2.1]
            exact h)).1]
  rfl

theorem TimeDistributed.runAll_output_preserved (l : TDLayer) (x : Tensor) (s : GPUState)
    (h : l.output.isSome) :
    ((TimeDistributed.runAll l x s).1.output.getD default).glTexture =
      (l.output.getD default).glTexture ∧
    ((TimeDistributed.runAll l x s).1.output.getD default).glTextureShape =
      (l.output.getD default).glTextureShape := by
  unfold TimeDistributed.runAll
  dsimp only
  have hsel : ∀ (lz : TDLayer) (xz : Tensor) (tz : Nat) (sz : GPUState),
      (TimeDistributed.selectPhase lz xz tz sz).1.output = lz.output :=
    fun lz xz tz sz => (TimeDistributed.selectPhase_frame lz xz tz sz).2.1
  constructor
  · rw [(TimeDistributed.loopGPU_frame' _ _ _ _ _).2.2.2.2.2.2.2.2.1,
        (TimeDistributed.writePhase_output_glTexture _ _ _ _).1,
        TimeDistributed.ensureOutput_skip _ _ _ _
          (by rw [hsel, (TimeDistributed.ensureSlice_frame _ _ _).2.2.1,
                  (TimeDistributed.prepMaps_frame _ _ _).2.2.1]
              exact h),
        hsel, (TimeDistributed.ensureSlice_frame _ _ _).2.2.1,
        (TimeDistributed.prepMaps_frame _ _ _).2.2.1]
  · rw [(TimeDistributed.loopGPU_frame' _ _ _ _ _).2.2.2.2.2.2.2.2.2.1,
        (TimeDistributed.writePhase_output_glTexture _ _ _ _).2.1,
        TimeDistributed.ensureOutput_skip _ _ _ _
          (by rw [hsel, (TimeDistributed.ensureSlice_frame _ _ _).2.2.1,
                  (TimeDistributed.prepMaps_frame _ _ _).2.2.1]
              exact h),
        hsel, (TimeDistributed.ensureSlice_frame _ _ _).2.2.1,
        (TimeDistributed.prepMaps_frame _ _ _).2.2.1]

theorem runProgram_glTexture (o : Tensor) (tex : List Int) (st : GPUState) :
    (runProgram o tex st).1.glTexture = o.glTexture := rfl

theorem Activation.callGPU_output_some_glTexture (l2 : ActLayer) (y : Tensor) (s2 : GPUState)
    (o : Tensor) (ho : l2.output = some o) :
    (Activation.callGPU l2 y s2).2.2.1.glTexture = o.glTexture ∧
    (Activation.callGPU l2 y s2).2.2.1.glTextureShape = o.glTextureShape := by
  unfold Activation.callGPU
  dsimp only
  rw [Activation.ensureOutput_some _ _ _ _ ho]
  exact ⟨(Activation.terminalTransfer_glTexture _ _ _).1,
         (Activation.terminalTransfer_glTexture _ _ _).2⟩

theorem TimeDistributed.callGPU_output_glTexture (l : TDLayer) (x : Tensor) (s : GPUState) :
    ((TimeDistributed.callGPU l x s).1.output.getD default).glTexture =
      ((TimeDistributed.runAll l x s).1.output.getD default).glTexture ∧
    ((TimeDistributed.callGPU l x s).1.output.getD default).glTextureShape =
      ((TimeDistributed.runAll l x s).1.output.getD default).glTextureShape := by
  unfold TimeDistributed.callGPU
  dsimp only
  exact ⟨(TimeDistributed.terminalTransfer_glTextureTD _ _ _).1,
         (TimeDistributed.terminalTransfer_glTextureTD _ _ _).2⟩

/-- C5: calling a layer a second time does not reallocate its device output
resources. Activation: the first call on a layer with no output yet creates
the output texture (a handle exists), and a second call — whatever the new
input's contents — returns an output with the identical texture handle and
texture shape. TimeDistributed: the same for the wrapper's output texture:
the handle created by the first call is the one the second call's output
carries; only texture contents differ. -/
theorem gpu_output_not_reallocated :
    (∀ (l : ActLayer) (x y : Tensor) (s : GPUState), l.output = none →
      (Activation.callGPU l x s).2.2.1.glTexture.isSome ∧
      (Activation.callGPU (Activation.callGPU l x s).1 y
          (Activation.callGPU l x s).2.2.2).2.2.1.glTexture =
        (Activation.callGPU l x s).2.2.1.glTexture ∧
      (Activation.callGPU (Activation.callGPU l x s).1 y
          (Activation.callGPU l x s).2.2.2).2.2.1.glTextureShape =
        (Activation.callGPU l x s).2.2.1.glTextureShape) ∧
    (∀ (l : TDLayer) (x y : Tensor) (s : GPUState), l.output = none →
      ((TimeDistributed.callGPU l x s).1.output.getD default).glTexture.isSome ∧
      ((TimeDistributed.callGPU (TimeDistributed.callGPU l x s).1 y
          (TimeDistributed.callGPU l x s).2.2).1.output.getD default).glTexture =
        ((TimeDistributed.callGPU l x s).1.output.getD default).glTexture ∧
      ((TimeDistributed.callGPU (TimeDistributed.callGPU l x s).1 y
          (TimeDistributed.callGPU l x s).2.2).1.output.getD default).glTextureShape =
        ((TimeDistributed.callGPU l x s).1.output.getD default).glTextureShape) := by
  constructor
  · intro l x y s h
    refine ⟨?_, ?_, ?_⟩
    · unfold Activation.callGPU
      dsimp only
      rw [(Activation.terminalTransfer_glTexture _ _ _).1, runProgram_glTexture,
          Activation.ensureOutput_none_glTexture _ _ _ h]
      rfl
    · exact (Activation.callGPU_output_some_glTexture _ y _ _ rfl).1
    · exact (Activation.callGPU_output_some_glTexture _ y _ _ rfl).2
  · intro l x y s h
    refine ⟨?_, ?_, ?_⟩
    · rw [(TimeDistributed.callGPU_output_glTexture l x s).1]
      exact TimeDistributed.runAll_output_created l x s h
    · rw [(TimeDistributed.callGPU_output_glTexture _ y _).1]
      exact (TimeDistributed.runAll_output_preserved (TimeDistributed.callGPU l x s).1 y
        (TimeDistributed.callGPU l x s).2.2 rfl).1
    · rw [(TimeDistributed.callGPU_output_glTexture _ y _).2]
      exact (TimeDistributed.runAll_output_preserved (TimeDistributed.callGPU l x s).1 y
        (TimeDistributed.callGPU l x s).2.2 rfl).2

/-- C5 witness: concrete first and second calls for both layers: the first
call creates the output texture and the second call's output carries the
identical handle and texture shape. -/
theorem gpu_output_not_reallocated_witness :
    ((Activation.callGPU
        { layerClass := "Activation", activation := "relu",
          activationFunc := activations "relu", gpu := true, outbound := [],
          program := some 0, output := none }
        { shape := [2, 3], data := [-1, 2, -3, 4, 0, 5] }
        { nextHandle := 1, runCount := 0, transferCount := 0 }).2.2.1.glTexture.isSome ∧
      (Activation.callGPU
          (Activation.callGPU
            { layerClass := "Activation", activation := "relu",
              activationFunc := activations "relu", gpu := true, outbound := [],
              program := some 0, output := none }
            { shape := [2, 3], data := [-1, 2, -3, 4, 0, 5] }
            { nextHandle := 1, runCount := 0, transferCount := 0 }).1
          { shape := [2, 3], data := [9, 9, 9, 9, 9, 9] }
          (Activation.callGPU
            { layerClass := "Activation", activation := "relu",
              activationFunc := activations "relu", gpu := true, outbound := [],
              program := some 0, output := none }
            { shape := [2, 3], data := [-1, 2, -3, 4, 0, 5] }
            { nextHandle := 1, runCount := 0, transferCount := 0 }).2.2.2).2.2.1.glTexture =
        (Activation.callGPU
          { layerClass := "Activation", activation := "relu",
            activationFunc := activations "relu", gpu := true, outbound := [],
            program := some 0, output := none }
          { shape := [2, 3], data := [-1, 2, -3, 4, 0, 5] }
          { nextHandle := 1, runCount := 0, transferCount := 0 }).2.2.1.glTexture) ∧
    (((TimeDistributed.callGPU
        { layerClass := "TimeDistributed", gpu := true, outbound := [],
          wrappedLayer := { layerClass := "Activation", activation := "relu",
                            activationFunc := activations "relu", gpu := true,
                            outbound := [none], program := some 0, output := none },
          copyTextureProgram := some 1, mapInputProgram := some 2, selectSliceProgram := some 3,
          copySliceOutputProgram := some 4, mapSliceOutputProgram := some 5 }
        { shape := [2, 3], data := [-1, 2, -3, 4, 0, 5] }
        { nextHandle := 6, runCount := 0, transferCount := 0 }).1.output.getD
          default).glTexture.isSome ∧
      ((TimeDistributed.callGPU
          (TimeDistributed.callGPU
            { layerClass := "TimeDistributed", gpu := true, outbound := [],
              wrappedLayer := { layerClass := "Activation", activation := "relu",
                                activationFunc := activations "relu", gpu := true,
                                outbound := [none], program := some 0, output := none },
              copyTextureProgram := some 1, mapInputProgram := some 2,
              selectSliceProgram := some 3, copySliceOutputProgram := some 4,
              mapSliceOutputProgram := some 5 }
            { shape := [2, 3], data := [-1, 2, -3, 4, 0, 5] }
            { nextHandle := 6, runCount := 0, transferCount := 0 }).1
          { shape := [2, 3], data := [9, 9, 9, 9, 9, 9] }
          (TimeDistributed.callGPU
            { layerClass := "TimeDistributed", gpu := true, outbound := [],
              wrappedLayer := { layerClass := "Activation", activation := "relu",
                                activationFunc := activations "relu", gpu := true,
                                outbound := [none], program := some 0, output := none },
              copyTextureProgram := some 1, mapInputProgram := some 2,
              selectSliceProgram := some 3, copySliceOutputProgram := some 4,
              mapSliceOutputProgram := some 5 }
            { shape := [2, 3], data := [-1, 2, -3, 4, 0, 5] }
            { nextHandle := 6, runCount := 0, transferCount := 0 }).2.2).1.output.getD
            default).glTexture =
        ((TimeDistributed.callGPU
            { layerClass := "TimeDistributed", gpu := true, outbound := [],
              wrappedLayer := { layerClass := "Activation", activation := "relu",
                                activationFunc := activations "relu", gpu := true,
                                outbound := [none], program := some 0, output := none },
              copyTextureProgram := some 1, mapInputProgram := some 2,
              selectSliceProgram := some 3, copySliceOutputProgram := some 4,
              mapSliceOutputProgram := some 5 }
            { shape := [2, 3], data := [-1, 2, -3, 4, 0, 5] }
            { nextHandle := 6, runCount := 0, transferCount := 0 }).1.output.getD
          default).glTexture) := by
  refine ⟨⟨?_, ?_⟩, ⟨?_, ?_⟩⟩
  · exact (gpu_output_not_reallocated.1 _ _ { shape := [2, 3], data := [9, 9, 9, 9, 9, 9] } _ rfl).1
  · exact (gpu_output_not_reallocated.1 _ _ _ _ rfl).2.1
  · exact (gpu_output_not_reallocated.2 _ _ { shape := [2, 3], data := [9, 9, 9, 9, 9, 9] } _ rfl).1
  · exact (gpu_output_not_reallocated.2 _ _ _ _ rfl).2.1

/-- C2 witness: a terminal relu Activation layer (empty outbound list)
performs exactly one transfer on a concrete call and returns a
non-square-reshaped output, and a non-terminal TimeDistributed wrapper
(non-empty outbound list) returns its pre-terminal device-resident output
with the backend state untouched by the terminal block. -/
theorem gpu_terminal_policy_witness :
    ((Activation.callGPU
        { layerClass := "Activation", activation := "relu",
          activationFunc := activations "relu", gpu := true, outbound := [],
          program := some 0, output := none }
        { shape := [2, 3], data := [-1, 2, -3, 4, 0, 5] }
        { nextHandle := 1, runCount := 0, transferCount := 0 }).2.2.2.transferCount = 0 + 1 ∧
      (Activation.callGPU
        { layerClass := "Activation", activation := "relu",
          activationFunc := activations "relu", gpu := true, outbound := [],
          program := some 0, output := none }
        { shape := [2, 3], data := [-1, 2, -3, 4, 0, 5] }
        { nextHandle := 1, runCount := 0, transferCount := 0 }).2.2.1.is2DReshaped = false) ∧
    ((TimeDistributed.callGPU
        { layerClass := "TimeDistributed", gpu := true, outbound := [some 0],
          wrappedLayer := { layerClass := "Activation", activation := "relu",
                            activationFunc := activations "relu", gpu := true,
                            outbound := [none], program := some 0, output := none },
          copyTextureProgram := some 1, mapInputProgram := some 2, selectSliceProgram := some 3,
          copySliceOutputProgram := some 4, mapSliceOutputProgram := some 5 }
        { shape := [2, 3], data := [-1, 2, -3, 4, 0, 5] }
        { nextHandle := 6, runCount := 0, transferCount := 0 }).2.1 =
      (TimeDistributed.runAll
        { layerClass := "TimeDistributed", gpu := true, outbound := [some 0],
          wrappedLayer := { layerClass := "Activation", activation := "relu",
                            activationFunc := activations "relu", gpu := true,
                            outbound := [none], program := some 0, output := none },
          copyTextureProgram := some 1, mapInputProgram := some 2, selectSliceProgram := some 3,
          copySliceOutputProgram := some 4, mapSliceOutputProgram := some 5 }
        { shape := [2, 3], data := [-1, 2, -3, 4, 0, 5] }
        { nextHandle := 6, runCount := 0, transferCount := 0 }).1.output.getD default ∧
      (TimeDistributed.callGPU
        { layerClass := "TimeDistributed", gpu := true, outbound := [some 0],
          wrappedLayer := { layerClass := "Activation", activation := "relu",
                            activationFunc := activations "relu", gpu := true,
                            outbound := [none], program := some 0, output := none },
          copyTextureProgram := some 1, mapInputProgram := some 2, selectSliceProgram := some 3,
          copySliceOutputProgram := some 4, mapSliceOutputProgram := some 5 }
        { shape := [2, 3], data := [-1, 2, -3, 4, 0, 5] }
        { nextHandle := 6, runCount := 0, transferCount := 0 }).2.2 =
      (TimeDistributed.runAll
        { layerClass := "TimeDistributed", gpu := true, outbound := [some 0],
          wrappedLayer := { layerClass := "Activation", activation := "relu",
                            activationFunc := activations "relu", gpu := true,
                            outbound := [none], program := some 0, output := none },
          copyTextureProgram := some 1, mapInputProgram := some 2, selectSliceProgram := some 3,
          copySliceOutputProgram := some 4, mapSliceOutputProgram := some 5 }
        { shape := [2, 3], data := [-1, 2, -3, 4, 0, 5] }
        { nextHandle := 6, runCount := 0, transferCount := 0 }).2.2) := by
  refine ⟨⟨?_, ?_⟩, ?_, ?_⟩
  · exact ((gpu_terminal_policy.1 _ _ _ _ _ _ _ rfl rfl).1 rfl).1
  · exact ((gpu_terminal_policy.1 _ _ _ _ _ _ _ rfl rfl).1 rfl).2.1
  · exact ((gpu_terminal_policy.2 _ _ _ _ _ _ _ rfl (by rfl)).2 (by decide)).1
  · exact ((gpu_terminal_policy.2 _ _ _ _ _ _ _ rfl (by rfl)).2 (by decide)).2

theorem TimeDistributed.prepMaps_maps_guard (l : TDLayer) (x1 : Tensor) (s : GPUState)
    (h1 : l.rowIndexMaps.isSome) (h2 : l.colIndexMaps.isSome) :
    (TimeDistributed.prepMaps l x1 s).1.rowIndexMaps = l.rowIndexMaps ∧
    (TimeDistributed.prepMaps l x1 s).1.colIndexMaps = l.colIndexMaps := by
  unfold TimeDistributed.prepMaps
  split
  · rw [TimeDistributed.createIndexMap_guard _ _ _ _ h1 h2]
    exact ⟨rfl, rfl⟩
  · exact ⟨rfl, rfl⟩

theorem TimeDistributed.ensureOutput_outputMaps_guard (l : TDLayer) (so : Tensor) (T : Nat)
    (s : GPUState) (h1 : l.outputRowIndexMaps.isSome) (h2 : l.outputColIndexMaps.isSome) :
    (TimeDistributed.ensureOutput l so T s).1.outputRowIndexMaps = l.outputRowIndexMaps ∧
    (TimeDistributed.ensureOutput l so T s).1.outputColIndexMaps = l.outputColIndexMaps := by
  unfold TimeDistributed.ensureOutput
  split
  · exact ⟨rfl, rfl⟩
  · split
    · exact ⟨rfl, rfl⟩
    · dsimp only
      rw [TimeDistributed.createOutputIndexMap_guard _ _ _ _ (by simpa using h1)
        (by simpa using h2)]
      exact ⟨rfl, rfl⟩

/-- C8: the wrapper's index-map collections are built at most once per
instance. The two builders return early (state completely unchanged) when
their collections already exist, and once all four collections exist, every
subsequent device-path call leaves all four unchanged. -/
theorem index_maps_built_once :
    (∀ (l : TDLayer) (r c : List Int) (s : GPUState),
      l.rowIndexMaps.isSome → l.colIndexMaps.isSome →
      TimeDistributed.createIndexMap l r c s = (l, s)) ∧
    (∀ (l : TDLayer) (r c : List Int) (s : GPUState),
      l.outputRowIndexMaps.isSome → l.outputColIndexMaps.isSome →
      TimeDistributed.createOutputIndexMap l r c s = (l, s)) ∧
    (∀ (l : TDLayer) (x : Tensor) (s : GPUState),
      l.rowIndexMaps.isSome → l.colIndexMaps.isSome →
      l.outputRowIndexMaps.isSome → l.outputColIndexMaps.isSome →
      (TimeDistributed.callGPU l x s).1.rowIndexMaps = l.rowIndexMaps ∧
      (TimeDistributed.callGPU l x s).1.colIndexMaps = l.colIndexMaps ∧
      (TimeDistributed.callGPU l x s).1.outputRowIndexMaps = l.outputRowIndexMaps ∧
      (TimeDistributed.callGPU l x s).1.outputColIndexMaps = l.outputColIndexMaps) := by
  refine ⟨TimeDistributed.createIndexMap_guard, TimeDistributed.createOutputIndexMap_guard, ?_⟩
  intro l x s h1 h2 h3 h4
  have hsel : ∀ (lz : TDLayer) (xz : Tensor) (tz : Nat) (sz : GPUState),
      (TimeDistributed.selectPhase lz xz tz sz).1.rowIndexMaps = lz.rowIndexMaps ∧
      (TimeDistributed.selectPhase lz xz tz sz).1.colIndexMaps = lz.colIndexMaps ∧
      (TimeDistributed.selectPhase lz xz tz sz).1.outputRowIndexMaps = lz.outputRowIndexMaps ∧
      (TimeDistributed.selectPhase lz xz tz sz).1.outputColIndexMaps = lz.outputColIndexMaps :=
    fun lz xz tz sz => ⟨rfl, rfl, rfl, rfl⟩
  refine ⟨?_, ?_, ?_, ?_⟩
  · show (TimeDistributed.runAll l x s).1.rowIndexMaps = l.rowIndexMaps
    unfold TimeDistributed.runAll
    dsimp only
    rw [(TimeDistributed.loopGPU_frame' _ _ _ _ _).2.2.1,
        (TimeDistributed.writePhase_frame _ _ _ _).2.2.2.2.2.1,
        (TimeDistributed.ensureOutput_frame _ _ _ _).2.2.2.1,
        (hsel _ _ _ _).1, (TimeDistributed.ensureSlice_frame _ _ _).2.2.2.2.2.2.1,
        (TimeDistributed.prepMaps_maps_guard _ _ _ (by exact h1) (by exact h2)).1]
  · show (TimeDistributed.runAll l x s).1.colIndexMaps = l.colIndexMaps
    unfold TimeDistributed.runAll
    dsimp only
    rw [(TimeDistributed.loopGPU_frame' _ _ _ _ _).2.2.2.1,
        (TimeDistributed.writePhase_frame _ _ _ _).2.2.2.2.2.2.1,
        (TimeDistributed.ensureOutput_frame _ _ _ _).2.2.2.2.1,
        (hsel _ _ _ _).2.1, (TimeDistributed.ensureSlice_frame _ _ _).2.2.2.2.2.2.2.1,
        (TimeDistributed.prepMaps_maps_guard _ _ _ (by exact h1) (by exact h2)).2]
  · show (TimeDistributed.runAll l x s).1.outputRowIndexMaps = l.outputRowIndexMaps
    unfold TimeDistributed.runAll
    dsimp only
    rw [(TimeDistributed.loopGPU_frame' _ _ _ _ _).2.2.2.2.1,
        (TimeDistributed.writePhase_frame _ _ _ _).2.2.2.2.2.2.2.1,
        (TimeDistributed.ensureOutput_outputMaps_guard _ _ _ _ (by
          rw [(hsel _ _ _ _).2.2.1, (TimeDistributed.ensureSlice_frame _ _ _).2.2.2.2.2.2.2.2.1,
              (TimeDistributed.prepMaps_frame _ _ _).2.2.2.2.2.2.2.1]
          exact h3) (by
          rw [(hsel _ _ _ _).2.2.2, (TimeDistributed.ensureSlice_frame _ _ _).2.2.2.2.2.2.2.2.2.1,
              (TimeDistributed.prepMaps_frame _ _ _).2.2.2.2.2.2.2.2.1]
          exact h4)).1,
        (hsel _ _ _ _).2.2.1, (TimeDistributed.ensureSlice_frame _ _ _).2.2.2.2.2.2.2.2.1,
        (TimeDistributed.prepMaps_frame _ _ _).2.2.2.2.2.2.2.1]
  · show (TimeDistributed.runAll l x s).1.outputColIndexMaps = l.outputColIndexMaps
    unfold TimeDistributed.runAll
    dsimp only
    rw [(TimeDistributed.loopGPU_frame' _ _ _ _ _).2.2.2.2.2.1,
        (TimeDistributed.writePhase_frame _ _ _ _).2.2.2.2.2.2.2.2,
        (TimeDistributed.ensureOutput_outputMaps_guard _ _ _ _ (by
          rw [(hsel _ _ _ _).2.2.1, (TimeDistributed.ensureSlice_frame _ _ _).2.2.2.2.2.2.2.2.1,
              (TimeDistributed.prepMaps_frame _ _ _).2.2.2.2.2.2.2.1]
          exact h3) (by
          rw [(hsel _ _ _ _).2.2.2, (TimeDistributed.ensureSlice_frame _ _ _).2.2.2.2.2.2.2.2.2.1,
              (TimeDistributed.prepMaps_frame _ _ _).2.2.2.2.2.2.2.2.1]
          exact h4)).2,
        (hsel _ _ _ _).2.2.2, (TimeDistributed.ensureSlice_frame _ _ _).2.2.2.2.2.2.2.2.2.1,
        (TimeDistributed.prepMaps_frame _ _ _).2.2.2.2.2.2.2.2.1]

/-- C8 witness: on a concrete wrapper whose four index-map collections
already exist, both builders return the state unchanged and a concrete
device call leaves all four collections untouched. -/
theorem index_maps_built_once_witness :
    TimeDistributed.createIndexMap
        { layerClass := "TimeDistributed", gpu := true, outbound := [],
          wrappedLayer := { layerClass := "Activation", activation := "relu",
                            activationFunc := activations "relu", gpu := true,
                            outbound := [none], program := some 0, output := none },
          copyTextureProgram := some 1, mapInputProgram := some 2, selectSliceProgram := some 3,
          copySliceOutputProgram := some 4, mapSliceOutputProgram := some 5,
          rowIndexMaps := some [], colIndexMaps := some [],
          outputRowIndexMaps := some [], outputColIndexMaps := some [] }
        [] [] default =
      ({ layerClass := "TimeDistributed", gpu := true, outbound := [],
         wrappedLayer := { layerClass := "Activation", activation := "relu",
                           activationFunc := activations "relu", gpu := true,
                           outbound := [none], program := some 0, output := none },
         copyTextureProgram := some 1, mapInputProgram := some 2, selectSliceProgram := some 3,
         copySliceOutputProgram := some 4, mapSliceOutputProgram := some 5,
         rowIndexMaps := some [], colIndexMaps := some [],
         outputRowIndexMaps := some [], outputColIndexMaps := some [] }, default) ∧
    TimeDistributed.createOutputIndexMap
        { layerClass := "TimeDistributed", gpu := true, outbound := [],
          wrappedLayer := { layerClass := "Activation", activation := "relu",
                            activationFunc := activations "relu", gpu := true,
                            outbound := [none], program := some 0, output := none },
          copyTextureProgram := some 1, mapInputProgram := some 2, selectSliceProgram := some 3,
          copySliceOutputProgram := some 4, mapSliceOutputProgram := some 5,
          rowIndexMaps := some [], colIndexMaps := some [],
          outputRowIndexMaps := some [], outputColIndexMaps := some [] }
        [] [] default =
      ({ layerClass := "TimeDistributed", gpu := true, outbound := [],
         wrappedLayer := { layerClass := "Activation", activation := "relu",
                           activationFunc := activations "relu", gpu := true,
                           outbound := [none], program := some 0, output := none },
         copyTextureProgram := some 1, mapInputProgram := some 2, selectSliceProgram := some 3,
         copySliceOutputProgram := some 4, mapSliceOutputProgram := some 5,
         rowIndexMaps := some [], colIndexMaps := some [],
         outputRowIndexMaps := some [], outputColIndexMaps := some [] }, default) ∧
    ((TimeDistributed.callGPU
        { layerClass := "TimeDistributed", gpu := true, outbound := [],
          wrappedLayer := { layerClass := "Activation", activation := "relu",
                            activationFunc := activations "relu", gpu := true,
                            outbound := [none], program := some 0, output := none },
          copyTextureProgram := some 1, mapInputProgram := some 2, selectSliceProgram := some 3,
          copySliceOutputProgram := some 4, mapSliceOutputProgram := some 5,
          rowIndexMaps := some [], colIndexMaps := some [],
          outputRowIndexMaps := some [], outputColIndexMaps := some [] }
        { shape := [2, 3], data := [-1, 2, -3, 4, 0, 5] }
        { nextHandle := 6, runCount := 0, transferCount := 0 }).1.rowIndexMaps = some [] ∧
      (TimeDistributed.callGPU
        { layerClass := "TimeDistributed", gpu := true, outbound := [],
          wrappedLayer := { layerClass := "Activation", activation := "relu",
                            activationFunc := activations "relu", gpu := true,
                            outbound := [none], program := some 0, output := none },
          copyTextureProgram := some 1, mapInputProgram := some 2, selectSliceProgram := some 3,
          copySliceOutputProgram := some 4, mapSliceOutputProgram := some 5,
          rowIndexMaps := some [], colIndexMaps := some [],
          outputRowIndexMaps := some [], outputColIndexMaps := some [] }
        { shape := [2, 3], data := [-1, 2, -3, 4, 0, 5] }
        { nextHandle := 6, runCount := 0, transferCount := 0 }).1.outputRowIndexMaps =
        some []) := by
  refine ⟨?_, ?_, ?_, ?_⟩
  · exact index_maps_built_once.1 _ [] [] default rfl rfl
  · exact index_maps_built_once.2.1 _ [] [] default rfl rfl
  · exact (index_maps_built_once.2.2
      { layerClass := "TimeDistributed", gpu := true, outbound := [],
        wrappedLayer := { layerClass := "Activation", activation := "relu",
                          activationFunc := activations "relu", gpu := true,
                          outbound := [none], program := some 0, output := none },
        copyTextureProgram := some 1, mapInputProgram := some 2, selectSliceProgram := some 3,
        copySliceOutputProgram := some 4, mapSliceOutputProgram := some 5,
        rowIndexMaps := some [], colIndexMaps := some [],
        outputRowIndexMaps := some [], outputColIndexMaps := some [] }
      { shape := [2, 3], data := [-1, 2, -3, 4, 0, 5] }
      { nextHandle := 6, runCount := 0, transferCount := 0 } rfl rfl rfl rfl).1
  · exact (index_maps_built_once.2.2
      { layerClass := "TimeDistributed", gpu := true, outbound := [],
        wrappedLayer := { layerClass := "Activation", activation := "relu",
                          activationFunc := activations "relu", gpu := true,
                          outbound := [none], program := some 0, output := none },
        copyTextureProgram := some 1, mapInputProgram := some 2, selectSliceProgram := some 3,
        copySliceOutputProgram := some 4, mapSliceOutputProgram := some 5,
        rowIndexMaps := some [], colIndexMaps := some [],
        outputRowIndexMaps := some [], outputColIndexMaps := some [] }
      { shape := [2, 3], data := [-1, 2, -3, 4, 0, 5] }
      { nextHandle := 6, runCount := 0, transferCount := 0 } rfl rfl rfl rfl).2.2.1
